import Mathlib

/-!
The program `gradeWork.cpp`: a turn-based virtual pet.

A shallow embedding of `src/gradeWork.cpp` and the properties of its
specification that hold, or fail, on the code.

Conventions of the embedding.

* C++ `int` is `Int`, taken as an unbounded integer: every quantity of the
  program stays far from the ends of the machine range on the paths studied
  here (attributes live in `[0, 100]`, prices and rewards are two-digit
  constants).
* `rand()` returns a non-negative integer; each call is an explicit argument
  of type `Nat`, in the order in which the source makes the calls.
* What the program reads from `std::cin` during one turn is the record
  `TurnInput`; text printed on `std::cout` is not modelled.
* `std::string` and the contents of a file are `List Char`.
* Member functions that mutate through references return the new values.
  `Interaction::handleChoice`, `Interaction::handleShopChoice` and
  `SimpleRandomEvent::triggerEvent` receive references to members of the one
  `Tamagotchi` object; they are embedded as functions on the whole record.
* The static `instanceCount` is cosmetic and is left out.
-/

namespace GradeWork

/-! ## Exceptions, attributes, age -/

/-- The class `TamagotchiException` (lines 11-16): one exception, no payload. -/
inductive TamagotchiException where
  | critical
deriving DecidableEq

/-- The class `Attribute` (lines 18-30). -/
structure Attribute where
  value : Int
  min_value : Int
  max_value : Int
deriving DecidableEq

/-- Line 27: `value = std::min(max_value, value + amount)`. -/
def Attribute.increase (a : Attribute) (amount : Int) : Attribute :=
  ⟨min a.max_value (a.value + amount), a.min_value, a.max_value⟩

/-- Line 28: `value = std::max(min_value, value - amount)`. -/
def Attribute.decrease (a : Attribute) (amount : Int) : Attribute :=
  ⟨max a.min_value (a.value - amount), a.min_value, a.max_value⟩

/-- Line 29: `get()`. -/
def Attribute.get (a : Attribute) : Int := a.value

/-- The class `Age` (lines 57-65). -/
structure Age where
  age : Int
deriving DecidableEq

/-- Line 63: `++age`. -/
def Age.increase (a : Age) : Age := ⟨a.age + 1⟩

/-- Line 64: `get()`. -/
def Age.get (a : Age) : Int := a.age

/-! ## Text streams: the parts of `<fstream>` that `SaveLoad` uses -/

/-- The classification `std::isspace` of the default locale. -/
def isspace (c : Char) : Bool :=
  c = ' ' || c = '\n' || c = '\t' || c = '\r' || c = Char.ofNat 11 || c = Char.ofNat 12

/-- Decimal rendering of an `int` by `operator<<`. -/
def showInt : Int → List Char
  | Int.ofNat n => Nat.toDigits 10 n
  | Int.negSucc n => '-' :: Nat.toDigits 10 (n + 1)

/-- Value of a decimal digit character. -/
def digitVal (c : Char) : Nat := c.toNat - 48

/-- The digit loop of `num_get`: accumulate decimal digits, stop at the first
character that is not a digit. -/
def readDigits : List Char → Nat → Nat × List Char
  | [], acc => (acc, [])
  | c :: cs, acc =>
    if c.isDigit then readDigits cs (acc * 10 + digitVal c) else (acc, c :: cs)

/-- Leading white space skipped by the sentry of a formatted input. -/
def skipws : List Char → List Char
  | [] => []
  | c :: cs => if isspace c then skipws cs else c :: cs

/-- An input file stream: the unread characters and the fail bit. -/
structure IFStream where
  buf : List Char
  failbit : Bool
deriving DecidableEq

/-- The call `std::getline(file, name)`: the characters up to the first
newline, which is consumed and not stored. On a failed stream nothing
happens; at the end of the file with nothing extracted the fail bit is set. -/
def IFStream.getline (s : IFStream) (name : List Char) : IFStream × List Char :=
  if s.failbit then (s, name)
  else
    match s.buf.dropWhile (fun c => c != '\n') with
    | [] => (⟨[], (s.buf.takeWhile (fun c => c != '\n')).isEmpty⟩,
             s.buf.takeWhile (fun c => c != '\n'))
    | _ :: rest => (⟨rest, false⟩, s.buf.takeWhile (fun c => c != '\n'))

/-- The extraction `file >> value` for an `int`. When the sentry fails (the
stream has already failed, or only white space is left) the variable keeps its
old value; when no digit is found the variable is set to 0 and the fail bit is
set; otherwise an optional sign and the longest run of digits are consumed. -/
def IFStream.extractInt (s : IFStream) (value : Int) : IFStream × Int :=
  if s.failbit then (s, value)
  else
    match skipws s.buf with
    | [] => (⟨[], true⟩, value)
    | c :: cs =>
      if c = '-' then
        match cs with
        | [] => (⟨[], true⟩, 0)
        | d :: ds =>
          if d.isDigit then
            (⟨(readDigits (d :: ds) 0).2, false⟩, - ((readDigits (d :: ds) 0).1 : Int))
          else (⟨d :: ds, true⟩, 0)
      else if c = '+' then
        match cs with
        | [] => (⟨[], true⟩, 0)
        | d :: ds =>
          if d.isDigit then
            (⟨(readDigits (d :: ds) 0).2, false⟩, ((readDigits (d :: ds) 0).1 : Int))
          else (⟨d :: ds, true⟩, 0)
      else if c.isDigit then
        (⟨(readDigits (c :: cs) 0).2, false⟩, ((readDigits (c :: cs) 0).1 : Int))
      else (⟨c :: cs, true⟩, 0)

/-! ## SaveLoad -/

/-- Lines 73-75: one line per attribute of the vector, in order. -/
def saveAttributes : List Attribute → List Char
  | [] => []
  | a :: rest => showInt a.get ++ '\n' :: saveAttributes rest

/-- The function `SaveLoad::saveToFile` (lines 69-83). `opened` is the outcome
of `file.is_open()` on the output stream; the result is the text written. -/
def SaveLoad.saveToFile (opened : Bool) (attributes : List Attribute) (age : Age)
    (money : Int) (name : List Char) : Except TamagotchiException (List Char) :=
  if opened then
    Except.ok (name ++ '\n' :: (saveAttributes attributes
      ++ (showInt age.get ++ '\n' :: (showInt money ++ ['\n']))))
  else
    Except.error TamagotchiException.critical

/-- The references handed to `SaveLoad::loadFromFile`. -/
structure LoadTargets where
  attributes : List Attribute
  age : Age
  money : Int
  name : List Char
deriving DecidableEq

/-- Lines 90-93: for each attribute of the vector, read an `int` into the local
`value` and move the attribute by `increase(value - attribute.get())`. The
result carries the stream, the local `value` and the attributes. -/
def loadAttributes : IFStream → Int → List Attribute → IFStream × Int × List Attribute
  | s, value, [] => (s, value, [])
  | s, value, a :: rest =>
    ((loadAttributes (s.extractInt value).1 (s.extractInt value).2 rest).1,
     (loadAttributes (s.extractInt value).1 (s.extractInt value).2 rest).2.1,
     a.increase ((s.extractInt value).2 - a.get)
       :: (loadAttributes (s.extractInt value).1 (s.extractInt value).2 rest).2.2)

/-- Lines 95-97: `for (int i = 0; i < value; ++i) age.increase();`. -/
def increaseAge : Nat → Age → Age
  | 0, a => a
  | n + 1, a => increaseAge n a.increase

/-- The function `SaveLoad::loadFromFile` (lines 85-104). `file` is the text of
the file, `none` when it cannot be opened; `value0` is the indeterminate
initial content of the local `int value`. The result is the state of the
referenced targets when the function is left, and the exception thrown, if
any. -/
def SaveLoad.loadFromFile (file : Option (List Char)) (value0 : Int) (tg : LoadTargets) :
    LoadTargets × Option TamagotchiException :=
  match file with
  | some text =>
    let s0 := (IFStream.getline ⟨text, false⟩ tg.name).1
    let name := (IFStream.getline ⟨text, false⟩ tg.name).2
    let r := loadAttributes s0 value0 tg.attributes
    let s1 := r.1
    let v1 := r.2.1
    let s2 := (s1.extractInt v1).1
    let v2 := (s1.extractInt v1).2
    let money := ((s2.extractInt tg.money)).2
    (⟨r.2.2, increaseAge v2.toNat tg.age, money, name⟩, none)
  | none => (tg, some TamagotchiException.critical)

/-! ## Random events, mini-games, economy -/

/-- The class `Economy` (lines 185-237); a new economy holds 50. -/
structure Economy where
  money : Int
deriving DecidableEq

/-- Lines 192-194: `getMoney()`. -/
def Economy.getMoney (e : Economy) : Int := e.money

/-- Lines 196-198: `earnMoney(amount)`. -/
def Economy.earnMoney (e : Economy) (amount : Int) : Economy := ⟨e.money + amount⟩

/-- Lines 200-206: `spendMoney(amount)`, the new economy and the returned flag. -/
def Economy.spendMoney (e : Economy) (amount : Int) : Economy × Bool :=
  if e.money ≥ amount then (⟨e.money - amount⟩, true) else (e, false)

/-- Lines 208-216: `buyFood(hunger)`. -/
def Economy.buyFood (e : Economy) (hunger : Attribute) : Economy × Attribute :=
  if (e.spendMoney 20).2 then ((e.spendMoney 20).1, hunger.increase 20)
  else ((e.spendMoney 20).1, hunger)

/-- Lines 218-226: `buyMedicine(health)`. -/
def Economy.buyMedicine (e : Economy) (health : Attribute) : Economy × Attribute :=
  if (e.spendMoney 30).2 then ((e.spendMoney 30).1, health.increase 30)
  else ((e.spendMoney 30).1, health)

/-- Lines 228-236: `buyToy(happiness)`. -/
def Economy.buyToy (e : Economy) (happiness : Attribute) : Economy × Attribute :=
  if (e.spendMoney 15).2 then ((e.spendMoney 15).1, happiness.increase 15)
  else ((e.spendMoney 15).1, happiness)

/-- The function `GuessingGame::play` (lines 146-161): `r` is the value of
`rand()`, `guess` the number read from the player; the result is the
happiness attribute and the `money` argument when the function returns. -/
def GuessingGame.play (r : Nat) (guess : Int) (happiness : Attribute) (money : Int) :
    Attribute × Int :=
  if guess = ((r % 100 + 1 : Nat) : Int) then (happiness.increase 20, money + 10)
  else (happiness.decrease 10, money)

/-- The function `ArithmeticGame::play` (lines 166-182): `ra` and `rb` are the
two values of `rand()`, `answer` the number read from the player. -/
def ArithmeticGame.play (ra rb : Nat) (answer : Int) (happiness : Attribute) (money : Int) :
    Attribute × Int :=
  if answer = ((ra % 10 + 1 : Nat) : Int) + ((rb % 10 + 1 : Nat) : Int) then
    (happiness.increase 20, money + 10)
  else (happiness.decrease 10, money)

/-! ## The pet -/

/-- The data members of the class `Tamagotchi` (lines 339-349). -/
structure Tamagotchi where
  name : List Char
  hunger : Attribute
  happiness : Attribute
  energy : Attribute
  cleanliness : Attribute
  age : Age
  health : Attribute
  economy : Economy
deriving DecidableEq

/-- A freshly constructed pet: the member initialisers of lines 339-349 and the
constructors `Age()`, `Health()`, `Economy()`. -/
def Tamagotchi.fresh : Tamagotchi :=
  ⟨[], ⟨50, 0, 100⟩, ⟨50, 0, 100⟩, ⟨50, 0, 100⟩, ⟨50, 0, 100⟩, ⟨0⟩, ⟨50, 0, 100⟩, ⟨50⟩⟩

/-- Lines 360-362: `setName`. -/
def Tamagotchi.setName (t : Tamagotchi) (newName : List Char) : Tamagotchi :=
  ⟨newName, t.hunger, t.happiness, t.energy, t.cleanliness, t.age, t.health, t.economy⟩

/-- Lines 406-408: `isAlive()`. -/
def Tamagotchi.isAlive (t : Tamagotchi) : Bool :=
  decide (t.hunger.get > 0) && decide (t.happiness.get > 0) && decide (t.energy.get > 0)
    && decide (t.cleanliness.get > 0)

/-- The function `SimpleRandomEvent::triggerEvent` (lines 114-134) on the four
attributes of the pet; `r` is the value of `rand()`. -/
def SimpleRandomEvent.triggerEvent (r : Nat) (t : Tamagotchi) : Tamagotchi :=
  if r % 4 = 0 then
    ⟨t.name, t.hunger.decrease 10, t.happiness, t.energy, t.cleanliness, t.age, t.health,
      t.economy⟩
  else if r % 4 = 1 then
    ⟨t.name, t.hunger, t.happiness.decrease 10, t.energy, t.cleanliness, t.age, t.health,
      t.economy⟩
  else if r % 4 = 2 then
    ⟨t.name, t.hunger, t.happiness, t.energy.decrease 10, t.cleanliness, t.age, t.health,
      t.economy⟩
  else if r % 4 = 3 then
    ⟨t.name, t.hunger, t.happiness, t.energy, t.cleanliness.decrease 10, t.age, t.health,
      t.economy⟩
  else t

/-- What one turn of the loop reads from the player and from `rand()`:
the menu choice; for Play the game number, the answer typed and the draws of
the game (the guessing game uses the first only); for Shop the shop choice;
and the draw of the random event. -/
structure TurnInput where
  choice : Char
  gameChoice : Int
  gameAnswer : Int
  gameRand1 : Nat
  gameRand2 : Nat
  shopChoice : Char
  eventRand : Nat
deriving DecidableEq

/-- The function `Interaction::handleShopChoice` (lines 320-334), called on the
pet's hunger, happiness, cleanliness and economy. -/
def Interaction.handleShopChoice (choice : Char) (t : Tamagotchi) : Tamagotchi :=
  if choice = '1' then
    ⟨t.name, (t.economy.buyFood t.hunger).2, t.happiness, t.energy, t.cleanliness, t.age,
      t.health, (t.economy.buyFood t.hunger).1⟩
  else if choice = '2' then
    ⟨t.name, t.hunger, t.happiness, t.energy, (t.economy.buyMedicine t.cleanliness).2, t.age,
      t.health, (t.economy.buyMedicine t.cleanliness).1⟩
  else if choice = '3' then
    ⟨t.name, t.hunger, (t.economy.buyToy t.happiness).2, t.energy, t.cleanliness, t.age,
      t.health, (t.economy.buyToy t.happiness).1⟩
  else t

/-- Lines 265-281, the case Play of `handleChoice`: the game chosen is played on
the pet's happiness and on the local copy `econ` of the balance, then energy
decreases by 5. The result is the pet and the final content of `econ`, which
the source drops at the end of the block. -/
def Interaction.playGame (i : TurnInput) (t : Tamagotchi) : Tamagotchi × Int :=
  if i.gameChoice = 1 then
    (⟨t.name, t.hunger, (GuessingGame.play i.gameRand1 i.gameAnswer t.happiness
        t.economy.getMoney).1, t.energy.decrease 5, t.cleanliness, t.age, t.health, t.economy⟩,
      (GuessingGame.play i.gameRand1 i.gameAnswer t.happiness t.economy.getMoney).2)
  else
    (⟨t.name, t.hunger, (ArithmeticGame.play i.gameRand1 i.gameRand2 i.gameAnswer t.happiness
        t.economy.getMoney).1, t.energy.decrease 5, t.cleanliness, t.age, t.health, t.economy⟩,
      (ArithmeticGame.play i.gameRand1 i.gameRand2 i.gameAnswer t.happiness
        t.economy.getMoney).2)

/-- The function `Interaction::handleChoice` (lines 259-310), called on the
pet's hunger, happiness, energy, cleanliness and economy. -/
def Interaction.handleChoice (i : TurnInput) (t : Tamagotchi) : Tamagotchi :=
  if i.choice = '1' then
    ⟨t.name, t.hunger.decrease 10, t.happiness, t.energy, t.cleanliness, t.age, t.health,
      t.economy⟩
  else if i.choice = '2' then (Interaction.playGame i t).1
  else if i.choice = '3' then
    ⟨t.name, t.hunger.increase 5, t.happiness, t.energy.increase 20, t.cleanliness, t.age,
      t.health, t.economy⟩
  else if i.choice = '4' then
    ⟨t.name, t.hunger, t.happiness, t.energy, t.cleanliness.increase 20, t.age, t.health,
      t.economy⟩
  else if i.choice = '5' then t
  else if i.choice = '6' then Interaction.handleShopChoice i.shopChoice t
  else if i.choice = '7' then t
  else t

/-- The body of the `do ... while` loop of `Tamagotchi::run` (lines 383-396):
the pet after the turn, and whether the loop goes on to another turn (`false`
after the `break` and when the condition `choice != '7'` fails). -/
def Tamagotchi.turn (t : Tamagotchi) (i : TurnInput) : Tamagotchi × Bool :=
  if (Interaction.handleChoice i t).isAlive then
    (⟨(SimpleRandomEvent.triggerEvent i.eventRand (Interaction.handleChoice i t)).name,
      (SimpleRandomEvent.triggerEvent i.eventRand (Interaction.handleChoice i t)).hunger,
      (SimpleRandomEvent.triggerEvent i.eventRand (Interaction.handleChoice i t)).happiness,
      (SimpleRandomEvent.triggerEvent i.eventRand (Interaction.handleChoice i t)).energy,
      (SimpleRandomEvent.triggerEvent i.eventRand (Interaction.handleChoice i t)).cleanliness,
      (SimpleRandomEvent.triggerEvent i.eventRand (Interaction.handleChoice i t)).age.increase,
      (SimpleRandomEvent.triggerEvent i.eventRand (Interaction.handleChoice i t)).health,
      (SimpleRandomEvent.triggerEvent i.eventRand (Interaction.handleChoice i t)).economy⟩,
     i.choice != '7')
  else (Interaction.handleChoice i t, false)

/-- The loop of lines 382-396 on the inputs of successive turns: `some` pet
when the loop is left, `none` when the inputs run out while the loop is still
waiting for a choice. -/
def Tamagotchi.runLoop : Tamagotchi → List TurnInput → Option Tamagotchi
  | _, [] => none
  | t, i :: rest => if (t.turn i).2 then Tamagotchi.runLoop (t.turn i).1 rest else some (t.turn i).1

/-- Line 370: the vector of references to the four attributes. -/
def Tamagotchi.attributes (t : Tamagotchi) : List Attribute :=
  [t.hunger, t.happiness, t.energy, t.cleanliness]

/-- Writing through the references of line 370: the members take the values of
the vector (which always has its four entries). -/
def Tamagotchi.setAttributes (t : Tamagotchi) : List Attribute → Tamagotchi
  | [h, p, e, c] => ⟨t.name, h, p, e, c, t.age, t.health, t.economy⟩
  | _ => t

/-- Lines 371-377 of `Tamagotchi::run`: the balance is copied into the local
`econ`, `loadFromFile` works on the attributes, the age, `econ` and the name;
a thrown exception is caught and reported. The members are then as
`loadFromFile` left its targets; `econ` goes out of scope. -/
def Tamagotchi.load (t : Tamagotchi) (file : Option (List Char)) (value0 : Int) : Tamagotchi :=
  ⟨(SaveLoad.loadFromFile file value0 ⟨t.attributes, t.age, t.economy.getMoney, t.name⟩).1.name,
   (t.setAttributes (SaveLoad.loadFromFile file value0
      ⟨t.attributes, t.age, t.economy.getMoney, t.name⟩).1.attributes).hunger,
   (t.setAttributes (SaveLoad.loadFromFile file value0
      ⟨t.attributes, t.age, t.economy.getMoney, t.name⟩).1.attributes).happiness,
   (t.setAttributes (SaveLoad.loadFromFile file value0
      ⟨t.attributes, t.age, t.economy.getMoney, t.name⟩).1.attributes).energy,
   (t.setAttributes (SaveLoad.loadFromFile file value0
      ⟨t.attributes, t.age, t.economy.getMoney, t.name⟩).1.attributes).cleanliness,
   (SaveLoad.loadFromFile file value0 ⟨t.attributes, t.age, t.economy.getMoney, t.name⟩).1.age,
   t.health,
   t.economy⟩

/-- Lines 398-403 of `Tamagotchi::run`: the text written to the save file, or
the exception that is caught and reported. -/
def Tamagotchi.save (t : Tamagotchi) (opened : Bool) : Except TamagotchiException (List Char) :=
  SaveLoad.saveToFile opened t.attributes t.age t.economy.getMoney t.name

/-- The file `tamagotchi_status.txt` as the program sees it: its text when it
can be opened for reading, and whether it can be opened for writing. -/
structure SaveFile where
  content : Option (List Char)
  writable : Bool
deriving DecidableEq

/-- The function `Tamagotchi::run` (lines 368-404): load, loop, save. The
result is the pet and the save file when `run` returns, `none` when the inputs
run out before the loop is left. -/
def Tamagotchi.run (t : Tamagotchi) (file : SaveFile) (value0 : Int)
    (inputs : List TurnInput) : Option (Tamagotchi × SaveFile) :=
  match (t.load file.content value0).runLoop inputs with
  | none => none
  | some t1 =>
    match t1.save file.writable with
    | Except.ok text => some (t1, ⟨some text, file.writable⟩)
    | Except.error _ => some (t1, file)

/-- One call of a mutator of `Attribute`, with its argument. -/
inductive AttributeCall where
  | increase (amount : Int)
  | decrease (amount : Int)
deriving DecidableEq

/-- The argument of a call. -/
def AttributeCall.amount : AttributeCall → Int
  | AttributeCall.increase n => n
  | AttributeCall.decrease n => n

/-- The attribute after one call. -/
def Attribute.call (a : Attribute) : AttributeCall → Attribute
  | AttributeCall.increase n => a.increase n
  | AttributeCall.decrease n => a.decrease n

/-- The attribute after a sequence of calls, made from left to right. -/
def Attribute.calls : Attribute → List AttributeCall → Attribute
  | a, [] => a
  | a, c :: rest => Attribute.calls (a.call c) rest

/-- The pet at the top of the loop of lines 382-396 once the listed turns have
been played, `none` when one of them left the loop: the loop is still running
in every state this function returns. -/
def Tamagotchi.afterTurns : Tamagotchi → List TurnInput → Option Tamagotchi
  | t, [] => some t
  | t, i :: rest => if (t.turn i).2 then Tamagotchi.afterTurns (t.turn i).1 rest else none

/-- The game of the specification, section 4.5, in its words: one challenge
game for both variants, which differ only in how the challenge is drawn and
verified. `won` is the verdict of the verifier. "Match: happiness+20, reward
+10 currency. Mismatch: happiness-10, no reward", the happiness deltas being
those of the bounded attribute of section 4.1: `min(max, value + delta)` and
`max(min, value - delta)`. This definition follows the specification, not the
source; the source's games are `GuessingGame.play` and `ArithmeticGame.play`. -/
def ChallengeGame.play (won : Bool) (happiness : Attribute) (money : Int) : Attribute × Int :=
  if won then
    (⟨min happiness.max_value (happiness.value + 20), happiness.min_value,
      happiness.max_value⟩, money + 10)
  else
    (⟨max happiness.min_value (happiness.value - 10), happiness.min_value,
      happiness.max_value⟩, money)

/-- The bounds every attribute of a pet is constructed with, 0 and 100; no
member function changes them. -/
def Tamagotchi.Bounded (t : Tamagotchi) : Prop :=
  (t.hunger.min_value = 0 ∧ t.hunger.max_value = 100) ∧
  (t.happiness.min_value = 0 ∧ t.happiness.max_value = 100) ∧
  (t.energy.min_value = 0 ∧ t.energy.max_value = 100) ∧
  (t.cleanliness.min_value = 0 ∧ t.cleanliness.max_value = 100) ∧
  (t.health.min_value = 0 ∧ t.health.max_value = 100)

instance (t : Tamagotchi) : Decidable t.Bounded := by
  unfold Tamagotchi.Bounded; infer_instance

/-- The pet of the scenario of the specification: hunger 5, the other
attributes 50. -/
def hungryPet : Tamagotchi :=
  ⟨['B', 'o', 'b'], ⟨5, 0, 100⟩, ⟨50, 0, 100⟩, ⟨50, 0, 100⟩, ⟨50, 0, 100⟩, ⟨0⟩, ⟨50, 0, 100⟩,
    ⟨50⟩⟩

/-- A turn that only makes a menu choice; the draw of the random event is `r`. -/
def menuInput (choice : Char) (r : Nat) : TurnInput := ⟨choice, 0, 0, 0, 0, '0', r⟩

/-- A Play turn on the guessing game in which the player guesses the secret:
the draw 41 gives the secret `41 % 100 + 1 = 42`, and the guess is 42. -/
def winInput : TurnInput := ⟨'2', 1, 42, 41, 0, '0', 0⟩

/-- A Shop turn that buys food; the draw of the random event is 1. -/
def buyFoodInput : TurnInput := ⟨'6', 0, 0, 0, 0, '1', 1⟩

/-- The record Bob, 60, 40, 50, 50, 2, 30 as the text of a save file. -/
def savedText : List Char :=
  ['B', 'o', 'b', '\n', '6', '0', '\n', '4', '0', '\n', '5', '0', '\n', '5', '0', '\n',
    '2', '\n', '3', '0', '\n']

/-- A fresh pet after five turns that each cost 10 of cleanliness: cleanliness
0, age 5. -/
def dirtyPet : Tamagotchi :=
  ⟨[], ⟨50, 0, 100⟩, ⟨50, 0, 100⟩, ⟨50, 0, 100⟩, ⟨0, 0, 100⟩, ⟨5⟩, ⟨50, 0, 100⟩, ⟨50⟩⟩

/-- A save file whose record stores -5 for hunger and 250 for happiness. -/
def outOfRangeText : List Char :=
  ['B', 'o', 'b', '\n', '-', '5', '\n', '2', '5', '0', '\n', '5', '0', '\n', '5', '0', '\n',
    '2', '\n', '3', '0', '\n']

/-! ## Basic facts about the embedding -/

@[simp] theorem Attribute.increase_value (a : Attribute) (n : Int) :
    (a.increase n).value = min a.max_value (a.value + n) := rfl

@[simp] theorem Attribute.increase_min_value (a : Attribute) (n : Int) :
    (a.increase n).min_value = a.min_value := rfl

@[simp] theorem Attribute.increase_max_value (a : Attribute) (n : Int) :
    (a.increase n).max_value = a.max_value := rfl

@[simp] theorem Attribute.decrease_value (a : Attribute) (n : Int) :
    (a.decrease n).value = max a.min_value (a.value - n) := rfl

@[simp] theorem Attribute.decrease_min_value (a : Attribute) (n : Int) :
    (a.decrease n).min_value = a.min_value := rfl

@[simp] theorem Attribute.decrease_max_value (a : Attribute) (n : Int) :
    (a.decrease n).max_value = a.max_value := rfl

@[simp] theorem Attribute.get_value (a : Attribute) : a.get = a.value := rfl

@[simp] theorem Age.get_age (a : Age) : a.get = a.age := rfl

@[simp] theorem Age.increase_age (a : Age) : a.increase.age = a.age + 1 := rfl

@[simp] theorem Economy.getMoney_eq (e : Economy) : e.getMoney = e.money := rfl

theorem Attribute.ext_iff3 (a b : Attribute) :
    a = b ↔ a.value = b.value ∧ a.min_value = b.min_value ∧ a.max_value = b.max_value := by
  cases a; cases b; simp

theorem Economy.spendMoney_fst (e : Economy) (amount : Int) :
    (e.spendMoney amount).1 = if e.money ≥ amount then ⟨e.money - amount⟩ else e := by
  unfold Economy.spendMoney; split <;> rfl

theorem Economy.spendMoney_snd (e : Economy) (amount : Int) :
    (e.spendMoney amount).2 = decide (e.money ≥ amount) := by
  unfold Economy.spendMoney; split <;> simp [*]

theorem isAlive_iff (t : Tamagotchi) :
    t.isAlive = true ↔
      0 < t.hunger.value ∧ 0 < t.happiness.value ∧ 0 < t.energy.value ∧
        0 < t.cleanliness.value := by
  simp [Tamagotchi.isAlive, and_assoc]

/-- The bounds 0 and 100 of the pet's attributes survive `handleShopChoice`. -/
theorem handleShopChoice_bounded (c : Char) (t : Tamagotchi) (hb : t.Bounded) :
    (Interaction.handleShopChoice c t).Bounded := by
  obtain ⟨⟨h1, h2⟩, ⟨h3, h4⟩, ⟨h5, h6⟩, ⟨h7, h8⟩, h9, h10⟩ := hb
  unfold Interaction.handleShopChoice Economy.buyFood Economy.buyMedicine Economy.buyToy
  split_ifs <;> simp [Tamagotchi.Bounded, *]

/-- The bounds 0 and 100 of the pet's attributes survive `handleChoice`. -/
theorem handleChoice_bounded (i : TurnInput) (t : Tamagotchi) (hb : t.Bounded) :
    (Interaction.handleChoice i t).Bounded := by
  have hs := handleShopChoice_bounded i.shopChoice t hb
  obtain ⟨⟨h1, h2⟩, ⟨h3, h4⟩, ⟨h5, h6⟩, ⟨h7, h8⟩, h9, h10⟩ := hb
  unfold Interaction.handleChoice Interaction.playGame GuessingGame.play ArithmeticGame.play
  split_ifs <;> first | exact hs | simp [Tamagotchi.Bounded, *]

/-- One random event on a living pet with lower bounds 0: exactly one of the
four attributes is lowered, to `max 0 (value - 10)`, and nothing else moves. -/
theorem triggerEvent_alive (r : Nat) (a : Tamagotchi) (hb : a.Bounded)
    (ha : a.isAlive = true) :
    (SimpleRandomEvent.triggerEvent r a).name = a.name ∧
    (SimpleRandomEvent.triggerEvent r a).age = a.age ∧
    (SimpleRandomEvent.triggerEvent r a).health = a.health ∧
    (SimpleRandomEvent.triggerEvent r a).economy = a.economy ∧
    (((SimpleRandomEvent.triggerEvent r a).hunger = a.hunger.decrease 10 ∧
        (SimpleRandomEvent.triggerEvent r a).hunger.get = max 0 (a.hunger.get - 10) ∧
        (SimpleRandomEvent.triggerEvent r a).hunger.get < a.hunger.get ∧
        (SimpleRandomEvent.triggerEvent r a).happiness = a.happiness ∧
        (SimpleRandomEvent.triggerEvent r a).energy = a.energy ∧
        (SimpleRandomEvent.triggerEvent r a).cleanliness = a.cleanliness) ∨
      ((SimpleRandomEvent.triggerEvent r a).happiness = a.happiness.decrease 10 ∧
        (SimpleRandomEvent.triggerEvent r a).happiness.get = max 0 (a.happiness.get - 10) ∧
        (SimpleRandomEvent.triggerEvent r a).happiness.get < a.happiness.get ∧
        (SimpleRandomEvent.triggerEvent r a).hunger = a.hunger ∧
        (SimpleRandomEvent.triggerEvent r a).energy = a.energy ∧
        (SimpleRandomEvent.triggerEvent r a).cleanliness = a.cleanliness) ∨
      ((SimpleRandomEvent.triggerEvent r a).energy = a.energy.decrease 10 ∧
        (SimpleRandomEvent.triggerEvent r a).energy.get = max 0 (a.energy.get - 10) ∧
        (SimpleRandomEvent.triggerEvent r a).energy.get < a.energy.get ∧
        (SimpleRandomEvent.triggerEvent r a).hunger = a.hunger ∧
        (SimpleRandomEvent.triggerEvent r a).happiness = a.happiness ∧
        (SimpleRandomEvent.triggerEvent r a).cleanliness = a.cleanliness) ∨
      ((SimpleRandomEvent.triggerEvent r a).cleanliness = a.cleanliness.decrease 10 ∧
        (SimpleRandomEvent.triggerEvent r a).cleanliness.get
          = max 0 (a.cleanliness.get - 10) ∧
        (SimpleRandomEvent.triggerEvent r a).cleanliness.get < a.cleanliness.get ∧
        (SimpleRandomEvent.triggerEvent r a).hunger = a.hunger ∧
        (SimpleRandomEvent.triggerEvent r a).happiness = a.happiness ∧
        (SimpleRandomEvent.triggerEvent r a).energy = a.energy)) := by
  obtain ⟨⟨m1, -⟩, ⟨m2, -⟩, ⟨m3, -⟩, ⟨m4, -⟩, -⟩ := hb
  obtain ⟨v1, v2, v3, v4⟩ := (isAlive_iff a).1 ha
  have hr : r % 4 < 4 := Nat.mod_lt _ (by norm_num)
  unfold SimpleRandomEvent.triggerEvent
  split_ifs with h0 h1 h2 h3
  · simp [m1]; omega
  · simp [m2]; omega
  · simp [m3]; omega
  · simp [m4]; omega
  · omega

/-- The turn when the pet is alive after the action. -/
theorem turn_of_alive (t : Tamagotchi) (i : TurnInput)
    (ha : (Interaction.handleChoice i t).isAlive = true) :
    (t.turn i).2 = (i.choice != '7') ∧
    (t.turn i).1.name = (SimpleRandomEvent.triggerEvent i.eventRand
      (Interaction.handleChoice i t)).name ∧
    (t.turn i).1.hunger = (SimpleRandomEvent.triggerEvent i.eventRand
      (Interaction.handleChoice i t)).hunger ∧
    (t.turn i).1.happiness = (SimpleRandomEvent.triggerEvent i.eventRand
      (Interaction.handleChoice i t)).happiness ∧
    (t.turn i).1.energy = (SimpleRandomEvent.triggerEvent i.eventRand
      (Interaction.handleChoice i t)).energy ∧
    (t.turn i).1.cleanliness = (SimpleRandomEvent.triggerEvent i.eventRand
      (Interaction.handleChoice i t)).cleanliness ∧
    (t.turn i).1.age = (SimpleRandomEvent.triggerEvent i.eventRand
      (Interaction.handleChoice i t)).age.increase ∧
    (t.turn i).1.health = (SimpleRandomEvent.triggerEvent i.eventRand
      (Interaction.handleChoice i t)).health ∧
    (t.turn i).1.economy = (SimpleRandomEvent.triggerEvent i.eventRand
      (Interaction.handleChoice i t)).economy := by
  simp [Tamagotchi.turn, ha]

/-- The turn when the pet is not alive after the action. -/
theorem turn_of_dead (t : Tamagotchi) (i : TurnInput)
    (ha : (Interaction.handleChoice i t).isAlive = false) :
    t.turn i = (Interaction.handleChoice i t, false) := by
  simp [Tamagotchi.turn, ha]

/-- Quit and every choice outside the menu leave the pet as it is in
`handleChoice`. -/
theorem handleChoice_noop (t : Tamagotchi) (i : TurnInput)
    (h : i.choice ≠ '1' ∧ i.choice ≠ '2' ∧ i.choice ≠ '3' ∧ i.choice ≠ '4' ∧ i.choice ≠ '6') :
    Interaction.handleChoice i t = t := by
  obtain ⟨h1, h2, h3, h4, h6⟩ := h
  simp [Interaction.handleChoice, h1, h2, h3, h4, h6]

/-- Once the loop has played some turns and is still running, the rest of the
loop is the loop from the pet reached. -/
theorem runLoop_of_afterTurns (played : List TurnInput) :
    ∀ (t0 t : Tamagotchi) (rest : List TurnInput), t0.afterTurns played = some t →
      t0.runLoop (played ++ rest) = t.runLoop rest := by
  induction played with
  | nil =>
    intro t0 t rest h
    simp only [Tamagotchi.afterTurns, Option.some.injEq] at h
    rw [h, List.nil_append]
  | cons j more ih =>
    intro t0 t rest h
    simp only [Tamagotchi.afterTurns] at h
    split_ifs at h with hc
    simp only [List.cons_append, Tamagotchi.runLoop, hc, if_true]
    exact ih _ _ rest h

/-! ## C1: one turn of the loop, for an action other than Quit -/

/-- C1. For every pet whose attributes have the bounds 0 and 100 and every
turn whose choice is not Quit: if `isAlive()` holds after the action, the loop
goes on, age grows by exactly 1 and exactly one of hunger, happiness, energy,
cleanliness is lowered, to `max 0 (value - 10)`, everything else staying as
the action left it; if `isAlive()` fails after the action, the loop stops and
the pet is exactly as the action left it. -/
theorem turn_after_action (t : Tamagotchi) (i : TurnInput) (hb : t.Bounded)
    (hq : i.choice ≠ '7') :
    ((Interaction.handleChoice i t).isAlive = true →
      (t.turn i).2 = true ∧
      (t.turn i).1.age.get = (Interaction.handleChoice i t).age.get + 1 ∧
      (t.turn i).1.name = (Interaction.handleChoice i t).name ∧
      (t.turn i).1.health = (Interaction.handleChoice i t).health ∧
      (t.turn i).1.economy = (Interaction.handleChoice i t).economy ∧
      (((t.turn i).1.hunger = (Interaction.handleChoice i t).hunger.decrease 10 ∧
          (t.turn i).1.hunger.get = max 0 ((Interaction.handleChoice i t).hunger.get - 10) ∧
          (t.turn i).1.hunger.get < (Interaction.handleChoice i t).hunger.get ∧
          (t.turn i).1.happiness = (Interaction.handleChoice i t).happiness ∧
          (t.turn i).1.energy = (Interaction.handleChoice i t).energy ∧
          (t.turn i).1.cleanliness = (Interaction.handleChoice i t).cleanliness) ∨
        ((t.turn i).1.happiness = (Interaction.handleChoice i t).happiness.decrease 10 ∧
          (t.turn i).1.happiness.get
            = max 0 ((Interaction.handleChoice i t).happiness.get - 10) ∧
          (t.turn i).1.happiness.get < (Interaction.handleChoice i t).happiness.get ∧
          (t.turn i).1.hunger = (Interaction.handleChoice i t).hunger ∧
          (t.turn i).1.energy = (Interaction.handleChoice i t).energy ∧
          (t.turn i).1.cleanliness = (Interaction.handleChoice i t).cleanliness) ∨
        ((t.turn i).1.energy = (Interaction.handleChoice i t).energy.decrease 10 ∧
          (t.turn i).1.energy.get = max 0 ((Interaction.handleChoice i t).energy.get - 10) ∧
          (t.turn i).1.energy.get < (Interaction.handleChoice i t).energy.get ∧
          (t.turn i).1.hunger = (Interaction.handleChoice i t).hunger ∧
          (t.turn i).1.happiness = (Interaction.handleChoice i t).happiness ∧
          (t.turn i).1.cleanliness = (Interaction.handleChoice i t).cleanliness) ∨
        ((t.turn i).1.cleanliness = (Interaction.handleChoice i t).cleanliness.decrease 10 ∧
          (t.turn i).1.cleanliness.get
            = max 0 ((Interaction.handleChoice i t).cleanliness.get - 10) ∧
          (t.turn i).1.cleanliness.get < (Interaction.handleChoice i t).cleanliness.get ∧
          (t.turn i).1.hunger = (Interaction.handleChoice i t).hunger ∧
          (t.turn i).1.happiness = (Interaction.handleChoice i t).happiness ∧
          (t.turn i).1.energy = (Interaction.handleChoice i t).energy))) ∧
    ((Interaction.handleChoice i t).isAlive = false →
      (t.turn i).2 = false ∧ (t.turn i).1 = Interaction.handleChoice i t) := by
  have hb1 := handleChoice_bounded i t hb
  simp only [Tamagotchi.turn]
  generalize Interaction.handleChoice i t = a at hb1 ⊢
  refine ⟨fun ha => ?_, fun ha => ?_⟩
  · obtain ⟨⟨m1, -⟩, ⟨m2, -⟩, ⟨m3, -⟩, ⟨m4, -⟩, -⟩ := hb1
    obtain ⟨v1, v2, v3, v4⟩ := (isAlive_iff a).1 ha
    have hr : i.eventRand % 4 < 4 := Nat.mod_lt _ (by norm_num)
    simp only [ha, if_true]
    refine ⟨by simpa using hq, ?_⟩
    unfold SimpleRandomEvent.triggerEvent
    split_ifs with h0 h1 h2 h3
    · simp [m1]; omega
    · simp [m2]; omega
    · simp [m3]; omega
    · simp [m4]; omega
    · omega
  · simp [ha]

/-- C1, the scenario of the specification: hunger 5 and the other attributes
50; Feed brings hunger to 0, `isAlive()` fails, the loop stops and the pet is
as the action left it, with no random event and the age unchanged. On a fresh
pet the same action leaves the pet alive: the loop goes on and age grows by 1. -/
theorem turn_after_action_witness :
    hungryPet.Bounded ∧ (menuInput '1' 0).choice ≠ '7' ∧
    (Interaction.handleChoice (menuInput '1' 0) hungryPet).hunger.get = 0 ∧
    (Interaction.handleChoice (menuInput '1' 0) hungryPet).isAlive = false ∧
    (hungryPet.turn (menuInput '1' 0)).2 = false ∧
    (hungryPet.turn (menuInput '1' 0)).1 = Interaction.handleChoice (menuInput '1' 0) hungryPet ∧
    (hungryPet.turn (menuInput '1' 0)).1.age.get = hungryPet.age.get ∧
    (Interaction.handleChoice (menuInput '1' 0) Tamagotchi.fresh).isAlive = true ∧
    (Tamagotchi.fresh.turn (menuInput '1' 0)).2 = true ∧
    (Tamagotchi.fresh.turn (menuInput '1' 0)).1.age.get
      = (Interaction.handleChoice (menuInput '1' 0) Tamagotchi.fresh).age.get + 1 :=
  ⟨by decide, by decide, by decide, by decide,
    ((turn_after_action hungryPet (menuInput '1' 0) (by decide) (by decide)).2 (by decide)).1,
    ((turn_after_action hungryPet (menuInput '1' 0) (by decide) (by decide)).2 (by decide)).2,
    by decide, by decide,
    ((turn_after_action Tamagotchi.fresh (menuInput '1' 0) (by decide) (by decide)).1
      (by decide)).1,
    ((turn_after_action Tamagotchi.fresh (menuInput '1' 0) (by decide) (by decide)).1
      (by decide)).2.1⟩

/-! ## C2: the Quit turn -/

/-- C2 as stated fails. On a fresh pet a Quit turn whose random draw is 0 leaves
the loop, yet hunger goes from 50 to 40 and age from 0 to 1, and these are the
values written to the save file. -/
theorem quit_turn_counterexample :
    (menuInput '7' 0).choice = '7' ∧
    Tamagotchi.fresh.hunger.get = 50 ∧ Tamagotchi.fresh.age.get = 0 ∧
    (Tamagotchi.fresh.turn (menuInput '7' 0)).2 = false ∧
    (Tamagotchi.fresh.turn (menuInput '7' 0)).1.hunger.get = 40 ∧
    (Tamagotchi.fresh.turn (menuInput '7' 0)).1.age.get = 1 ∧
    ¬ ((Tamagotchi.fresh.turn (menuInput '7' 0)).1.hunger.get = Tamagotchi.fresh.hunger.get ∧
        (Tamagotchi.fresh.turn (menuInput '7' 0)).1.age.get = Tamagotchi.fresh.age.get) ∧
    (Tamagotchi.fresh.run ⟨none, true⟩ 0 [menuInput '7' 0]).map (fun r => r.2.content)
      = some (some ['\n', '4', '0', '\n', '5', '0', '\n', '5', '0', '\n', '5', '0', '\n',
          '1', '\n', '5', '0', '\n']) := by
  refine ⟨by decide, by decide, by decide, by decide, by decide, by decide, by decide, ?_⟩
  rfl

/-- C2 as amended. For every pet whose attributes have the bounds 0 and 100, a
turn whose choice is Quit leaves the loop after that turn, whatever inputs
follow; the action itself changes nothing and the balance, the name and health
are as before the turn. The aliveness step of the turn still runs: when
`isAlive()` holds, age grows by exactly 1 and exactly one of hunger, happiness,
energy, cleanliness is lowered to `max 0 (value - 10)`; when it fails, the pet
after the turn is the pet before it. The pet after the turn is what `run`
saves: whenever `run`, after its load step and any turns already played,
stands at this pet and plays the Quit turn, it returns the pet after that
turn, and the save file, when it opens for writing, holds the name, the four
attributes, the age and the balance of the pet after that turn, in this order,
one a line; when it does not open, the file is left as it was. -/
theorem quit_turn (t : Tamagotchi) (i : TurnInput) (hb : t.Bounded) (hq : i.choice = '7') :
    Interaction.handleChoice i t = t ∧
    (t.turn i).2 = false ∧
    (∀ rest, t.runLoop (i :: rest) = some (t.turn i).1) ∧
    (t.turn i).1.economy.getMoney = t.economy.getMoney ∧
    (t.turn i).1.name = t.name ∧
    (t.turn i).1.health = t.health ∧
    (t.isAlive = true →
      (t.turn i).1.age.get = t.age.get + 1 ∧
      (((t.turn i).1.hunger.get = max 0 (t.hunger.get - 10) ∧
          (t.turn i).1.hunger.get < t.hunger.get ∧
          (t.turn i).1.happiness = t.happiness ∧
          (t.turn i).1.energy = t.energy ∧
          (t.turn i).1.cleanliness = t.cleanliness) ∨
        ((t.turn i).1.happiness.get = max 0 (t.happiness.get - 10) ∧
          (t.turn i).1.happiness.get < t.happiness.get ∧
          (t.turn i).1.hunger = t.hunger ∧
          (t.turn i).1.energy = t.energy ∧
          (t.turn i).1.cleanliness = t.cleanliness) ∨
        ((t.turn i).1.energy.get = max 0 (t.energy.get - 10) ∧
          (t.turn i).1.energy.get < t.energy.get ∧
          (t.turn i).1.hunger = t.hunger ∧
          (t.turn i).1.happiness = t.happiness ∧
          (t.turn i).1.cleanliness = t.cleanliness) ∨
        ((t.turn i).1.cleanliness.get = max 0 (t.cleanliness.get - 10) ∧
          (t.turn i).1.cleanliness.get < t.cleanliness.get ∧
          (t.turn i).1.hunger = t.hunger ∧
          (t.turn i).1.happiness = t.happiness ∧
          (t.turn i).1.energy = t.energy))) ∧
    (t.isAlive = false → (t.turn i).1 = t) ∧
    (∀ (t0 : Tamagotchi) (file : SaveFile) (value0 : Int) (played rest : List TurnInput),
      (t0.load file.content value0).afterTurns played = some t →
      t0.run file value0 (played ++ i :: rest) =
        some ((t.turn i).1,
          if file.writable = true then
            ⟨some ((t.turn i).1.name ++ '\n' ::
              (showInt (t.turn i).1.hunger.get ++ '\n' ::
              (showInt (t.turn i).1.happiness.get ++ '\n' ::
              (showInt (t.turn i).1.energy.get ++ '\n' ::
              (showInt (t.turn i).1.cleanliness.get ++ '\n' ::
              (showInt (t.turn i).1.age.get ++ '\n' ::
              (showInt (t.turn i).1.economy.getMoney ++ ['\n']))))))), true⟩
          else file)) := by
  have hc : Interaction.handleChoice i t = t :=
    handleChoice_noop t i (by rw [hq]; decide)
  have hstop : (t.turn i).2 = false := by
    unfold Tamagotchi.turn
    split_ifs <;> simp [hq]
  have hloop : ∀ rest, t.runLoop (i :: rest) = some (t.turn i).1 := by
    intro rest
    simp [Tamagotchi.runLoop, hstop]
  have hrest : ∀ b : Bool, t.isAlive = b →
      (t.turn i).1.economy.getMoney = t.economy.getMoney ∧ (t.turn i).1.name = t.name ∧
        (t.turn i).1.health = t.health := by
    intro b hbv
    cases b
    · rw [turn_of_dead t i (by rw [hc]; exact hbv), hc]; simp
    · obtain ⟨-, e1, -, -, -, -, -, e7, e8⟩ := turn_of_alive t i (by rw [hc]; exact hbv)
      obtain ⟨n1, -, n3, n4, -⟩ := triggerEvent_alive i.eventRand t hb hbv
      rw [hc] at e1 e7 e8
      rw [e1, e7, e8, n1, n3, n4]; simp
  refine ⟨hc, hstop, hloop, (hrest _ rfl).1, (hrest _ rfl).2.1, (hrest _ rfl).2.2, ?_, ?_,
    ?_⟩
  · intro ha
    obtain ⟨-, -, e2, e3, e4, e5, e6, -, -⟩ := turn_of_alive t i (by rw [hc]; exact ha)
    obtain ⟨-, n2, -, -, hd⟩ := triggerEvent_alive i.eventRand t hb ha
    rw [hc] at e2 e3 e4 e5 e6
    rw [e2, e3, e4, e5, e6, n2]
    refine ⟨by simp, ?_⟩
    rcases hd with ⟨-, d⟩ | ⟨-, d⟩ | ⟨-, d⟩ | ⟨-, d⟩
    · exact Or.inl d
    · exact Or.inr (Or.inl d)
    · exact Or.inr (Or.inr (Or.inl d))
    · exact Or.inr (Or.inr (Or.inr d))
  · intro ha
    rw [turn_of_dead t i (by rw [hc]; exact ha), hc]
  · intro t0 file value0 played rest hreach
    have hrun : (t0.load file.content value0).runLoop (played ++ i :: rest)
        = some (t.turn i).1 := by
      rw [runLoop_of_afterTurns played _ t (i :: rest) hreach, hloop]
    simp only [Tamagotchi.run, hrun]
    cases hw : file.writable with
    | false => rfl
    | true =>
      simp [Tamagotchi.save, SaveLoad.saveToFile, Tamagotchi.attributes, saveAttributes]

/-- C2 as amended, at a concrete pet: a fresh pet, a Quit turn, random draw 1
(the event on happiness). The turn leaves the loop with happiness 40 and age
1, and `run` writes the record 50, 40, 50, 50, 1, 50 under the empty name. -/
theorem quit_turn_witness :
    Tamagotchi.fresh.Bounded ∧ (menuInput '7' 1).choice = '7' ∧
    Tamagotchi.fresh.isAlive = true ∧
    (Tamagotchi.fresh.turn (menuInput '7' 1)).2 = false ∧
    (Tamagotchi.fresh.turn (menuInput '7' 1)).1.economy.getMoney = 50 ∧
    (Tamagotchi.fresh.turn (menuInput '7' 1)).1.happiness.get = 40 ∧
    (Tamagotchi.fresh.turn (menuInput '7' 1)).1.age.get = Tamagotchi.fresh.age.get + 1 ∧
    (Tamagotchi.fresh.load none 0).afterTurns [] = some Tamagotchi.fresh ∧
    Tamagotchi.fresh.run ⟨none, true⟩ 0 [menuInput '7' 1] =
      some (⟨[], ⟨50, 0, 100⟩, ⟨40, 0, 100⟩, ⟨50, 0, 100⟩, ⟨50, 0, 100⟩, ⟨1⟩, ⟨50, 0, 100⟩,
          ⟨50⟩⟩,
        ⟨some ['\n', '5', '0', '\n', '4', '0', '\n', '5', '0', '\n', '5', '0', '\n', '1', '\n',
          '5', '0', '\n'], true⟩) :=
  ⟨by decide, by decide, by decide,
    (quit_turn Tamagotchi.fresh (menuInput '7' 1) (by decide) (by decide)).2.1,
    (quit_turn Tamagotchi.fresh (menuInput '7' 1) (by decide) (by decide)).2.2.2.1,
    by decide,
    ((quit_turn Tamagotchi.fresh (menuInput '7' 1) (by decide) (by decide)).2.2.2.2.2.2.1
      (by decide)).1,
    by decide,
    (quit_turn Tamagotchi.fresh (menuInput '7' 1) (by decide) (by decide)).2.2.2.2.2.2.2.2
      Tamagotchi.fresh ⟨none, true⟩ 0 [] [] (by decide)⟩

/-! ## C3: the Play action -/

/-- C3, the code at a won game. `GuessingGame::play` does add the reward of 10
to its `money` argument and raises happiness by 20, and energy drops by 5; but
the argument is the local copy `econ` of `handleChoice`, so no Play action
ever changes the balance that `Economy::getMoney` returns: on a fresh pet
(balance 50) a won guessing game leaves the balance at 50, not at 60. -/
theorem play_win_keeps_balance :
    (∀ (i : TurnInput) (t : Tamagotchi),
      (Interaction.playGame i t).1.economy.getMoney = t.economy.getMoney) ∧
    GuessingGame.play 41 42 Tamagotchi.fresh.happiness Tamagotchi.fresh.economy.getMoney
      = (⟨70, 0, 100⟩, 60) ∧
    (Interaction.playGame winInput Tamagotchi.fresh).2 = 60 ∧
    (Interaction.handleChoice winInput Tamagotchi.fresh).happiness.get = 70 ∧
    (Interaction.handleChoice winInput Tamagotchi.fresh).energy.get = 45 ∧
    Tamagotchi.fresh.economy.getMoney = 50 ∧
    (Interaction.handleChoice winInput Tamagotchi.fresh).economy.getMoney = 50 ∧
    (Interaction.handleChoice winInput Tamagotchi.fresh).economy.getMoney
      ≠ Tamagotchi.fresh.economy.getMoney + 10 := by
  refine ⟨?_, by decide, by decide, by decide, by decide, by decide, by decide, by decide⟩
  intro i t
  unfold Interaction.playGame
  split_ifs <;> rfl

/-! ## C4: save, then load -/

/-- A decimal digit is rendered as a digit character of that value. -/
theorem digitChar_digit (d : Nat) (h : d < 10) :
    (Nat.digitChar d).isDigit = true ∧ digitVal (Nat.digitChar d) = d := by
  interval_cases d <;> exact ⟨by decide, by decide⟩

/-- A digit character is neither white space nor a sign. -/
theorem isDigit_not_special (c : Char) (h : c.isDigit = true) :
    isspace c = false ∧ c ≠ '-' ∧ c ≠ '+' ∧ c ≠ '\n' := by
  have key : ∀ d : Char, d.isDigit = false → c ≠ d := by
    intro d hd hcd
    rw [hcd, hd] at h
    exact Bool.noConfusion h
  have h1 := key ' ' (by decide)
  have h2 := key '\n' (by decide)
  have h3 := key '\t' (by decide)
  have h4 := key '\r' (by decide)
  have h5 := key (Char.ofNat 11) (by decide)
  have h6 := key (Char.ofNat 12) (by decide)
  refine ⟨?_, key _ (by decide), key _ (by decide), h2⟩
  simp [isspace, h1, h2, h3, h4, h5, h6]

/-- Reading back the digits that `Nat.toDigitsCore` produces, when the fuel
suffices, gives the number rendered. -/
theorem readDigits_toDigitsCore (rest : List Char) :
    ∀ (fuel n : Nat) (ds : List Char), n < fuel →
      readDigits (Nat.toDigitsCore 10 fuel n ds ++ rest) 0 = readDigits (ds ++ rest) n := by
  intro fuel
  induction fuel with
  | zero => intro n ds h; omega
  | succ f ih =>
    intro n ds h
    obtain ⟨hd1, hd2⟩ := digitChar_digit (n % 10) (Nat.mod_lt _ (by norm_num))
    unfold Nat.toDigitsCore
    by_cases h0 : n / 10 = 0
    · have hn : n % 10 = n := by omega
      rw [hn] at hd1 hd2
      simp only [h0, if_true]
      simp [readDigits, hd1, hd2, hn]
    · simp only [h0, if_false]
      rw [ih (n / 10) _ (by omega)]
      have hn : n / 10 * 10 + n % 10 = n := by omega
      simp [readDigits, hd1, hd2, hn]

/-- The rendering of a number starts with a digit. -/
theorem toDigitsCore_head :
    ∀ (fuel n : Nat) (ds : List Char), n < fuel →
      ∃ c tl, Nat.toDigitsCore 10 fuel n ds = c :: tl ∧ c.isDigit = true := by
  intro fuel
  induction fuel with
  | zero => intro n ds h; omega
  | succ f ih =>
    intro n ds h
    obtain ⟨hd1, -⟩ := digitChar_digit (n % 10) (Nat.mod_lt _ (by norm_num))
    unfold Nat.toDigitsCore
    by_cases h0 : n / 10 = 0
    · simp only [h0, if_true]
      exact ⟨_, _, rfl, hd1⟩
    · simp only [h0, if_false]
      exact ih (n / 10) _ (by omega)

/-- The sentry skips the newline that ends the line before. -/
theorem extractInt_newline (xs : List Char) (old : Int) :
    IFStream.extractInt ⟨'\n' :: xs, false⟩ old = IFStream.extractInt ⟨xs, false⟩ old := by
  simp [IFStream.extractInt, skipws, isspace]

/-- No white space is skipped in front of a digit. -/
theorem skipws_digit (c : Char) (cs : List Char) (h : c.isDigit = true) :
    skipws (c :: cs) = c :: cs := by
  simp [skipws, (isDigit_not_special c h).1]

/-- The digit loop stops at a newline. -/
theorem readDigits_newline (rest : List Char) (n : Nat) :
    readDigits ('\n' :: rest) n = (n, '\n' :: rest) := by
  have : ('\n' : Char).isDigit = false := by decide
  simp [readDigits, this]

/-- Extracting an `int` from its own rendering followed by a newline gives the
`int` back and stops in front of the newline. -/
theorem extractInt_showInt (v : Int) (rest : List Char) (old : Int) :
    IFStream.extractInt ⟨showInt v ++ '\n' :: rest, false⟩ old = (⟨'\n' :: rest, false⟩, v) := by
  cases v with
  | ofNat n =>
    obtain ⟨c, tl, hc, hdig⟩ := toDigitsCore_head (n + 1) n [] (by omega)
    obtain ⟨-, hm, hp, -⟩ := isDigit_not_special c hdig
    have hread := readDigits_toDigitsCore ('\n' :: rest) (n + 1) n [] (by omega)
    simp only [showInt, Nat.toDigits]
    rw [hc] at hread ⊢
    simp only [IFStream.extractInt, List.cons_append, skipws_digit c _ hdig] at hread ⊢
    simp [hm, hp, hdig, hread, readDigits_newline]
  | negSucc n =>
    obtain ⟨c, tl, hc, hdig⟩ := toDigitsCore_head (n + 1 + 1) (n + 1) [] (by omega)
    have hread := readDigits_toDigitsCore ('\n' :: rest) (n + 1 + 1) (n + 1) [] (by omega)
    have hsp : isspace '-' = false := by decide
    simp only [showInt, Nat.toDigits]
    rw [hc] at hread ⊢
    simp only [List.cons_append] at hread
    simp [IFStream.extractInt, skipws, hsp, hdig, hread, readDigits_newline, Int.negSucc_eq]

/-- Splitting a text at its first newline. -/
theorem takeWhile_dropWhile_line (name rest : List Char) (h : '\n' ∉ name) :
    (name ++ '\n' :: rest).takeWhile (fun c => c != '\n') = name ∧
    (name ++ '\n' :: rest).dropWhile (fun c => c != '\n') = '\n' :: rest := by
  induction name with
  | nil => simp
  | cons c cs ih =>
    have hc : c ≠ '\n' := fun hc => h (by simp [hc])
    have hcs : '\n' ∉ cs := fun hcs => h (by simp [hcs])
    have hne : (c != '\n') = true := by simp [hc]
    obtain ⟨i1, i2⟩ := ih hcs
    simp [List.takeWhile, List.dropWhile, hne, i1, i2]

/-- The call `getline` returns a first line that holds no newline and consumes
the newline after it. -/
theorem getline_line (name rest name0 : List Char) (h : '\n' ∉ name) :
    IFStream.getline ⟨name ++ '\n' :: rest, false⟩ name0 = (⟨rest, false⟩, name) := by
  obtain ⟨h1, h2⟩ := takeWhile_dropWhile_line name rest h
  simp [IFStream.getline, h1, h2]

/-- The loop of lines 95-97 adds its bound to the age. -/
theorem increaseAge_age (n : Nat) (a : Age) : increaseAge n a = ⟨a.age + n⟩ := by
  induction n generalizing a with
  | zero => simp [increaseAge]
  | succ k ih =>
    rw [increaseAge, ih]
    simp [Age.increase]
    omega

/-- C4. Save-then-load round trip of `SaveLoad`. For every name without a
newline, all attribute values that are at most 100 (so in particular all in
`[0, 100]`), every age that is at least 0 and every money (so in particular
every money that is at least 0): `saveToFile` on a file that opens writes a
text, and `loadFromFile` on that text, into fresh targets (attributes at 50
with bounds 0 and 100, age 0) and whatever the targets for money and name
held and whatever the local `value` held, throws nothing and yields exactly
the name, the four attribute values, the age and the money that were saved. -/
theorem save_load_roundtrip (name : List Char) (h p e c age money : Int)
    (hname : '\n' ∉ name) (hh : h ≤ 100) (hp : p ≤ 100) (he : e ≤ 100) (hc : c ≤ 100)
    (hage : 0 ≤ age) (value0 money0 : Int) (name0 : List Char) :
    ∃ text,
      SaveLoad.saveToFile true [⟨h, 0, 100⟩, ⟨p, 0, 100⟩, ⟨e, 0, 100⟩, ⟨c, 0, 100⟩] ⟨age⟩
        money name = Except.ok text ∧
      SaveLoad.loadFromFile (some text) value0
          ⟨[⟨50, 0, 100⟩, ⟨50, 0, 100⟩, ⟨50, 0, 100⟩, ⟨50, 0, 100⟩], ⟨0⟩, money0, name0⟩
        = (⟨[⟨h, 0, 100⟩, ⟨p, 0, 100⟩, ⟨e, 0, 100⟩, ⟨c, 0, 100⟩], ⟨age⟩, money, name⟩,
            none) := by
  refine ⟨_, rfl, ?_⟩
  simp only [SaveLoad.loadFromFile, saveAttributes, getline_line _ _ _ hname, loadAttributes,
    Attribute.get_value, Age.get_age, List.append_assoc, List.cons_append, List.nil_append,
    extractInt_showInt, extractInt_newline, increaseAge_age]
  simp [Attribute.increase, hh, hp, he, hc, hage]

/-- C4 at a concrete record: the name Bob, attributes 60, 40, 50, 50, age 2,
money 30. -/
theorem save_load_roundtrip_witness :
    '\n' ∉ ['B', 'o', 'b'] ∧ (60 : Int) ≤ 100 ∧ (0 : Int) ≤ 2 ∧
    ∃ text,
      SaveLoad.saveToFile true [⟨60, 0, 100⟩, ⟨40, 0, 100⟩, ⟨50, 0, 100⟩, ⟨50, 0, 100⟩] ⟨2⟩
        30 ['B', 'o', 'b'] = Except.ok text ∧
      SaveLoad.loadFromFile (some text) 0
          ⟨[⟨50, 0, 100⟩, ⟨50, 0, 100⟩, ⟨50, 0, 100⟩, ⟨50, 0, 100⟩], ⟨0⟩, 50, []⟩
        = (⟨[⟨60, 0, 100⟩, ⟨40, 0, 100⟩, ⟨50, 0, 100⟩, ⟨50, 0, 100⟩], ⟨2⟩, 30, ['B', 'o', 'b']⟩,
            none) :=
  ⟨by decide, by decide, by decide,
    save_load_roundtrip ['B', 'o', 'b'] 60 40 50 50 2 30 (by decide) (by decide) (by decide)
      (by decide) (by decide) (by decide) 0 50 []⟩

/-! ## C5: the state across two runs -/

/-- C5, the code on a persisted balance. The load step of `run` never changes
the balance of the pet: `loadFromFile` stores the money it reads in the local
copy `econ`. At a concrete state: a first run (no save file; a pet named Bob
buys food, then quits) ends with balance 30 and writes the record
Bob, 60, 40, 50, 50, 2, 30; the load step of the next run restores the name,
the four attributes and the age of that record, and leaves the balance of the
fresh pet at 50, not at 30. -/
theorem load_keeps_fresh_balance :
    (∀ (t : Tamagotchi) (file : Option (List Char)) (value0 : Int),
      (t.load file value0).economy.getMoney = t.economy.getMoney) ∧
    ((Tamagotchi.fresh.setName ['B', 'o', 'b']).run ⟨none, true⟩ 0
        [buyFoodInput, menuInput '7' 0]).map (fun r => (r.1.economy.getMoney, r.2.content))
      = some (30, some savedText) ∧
    (Tamagotchi.fresh.load (some savedText) 0).name = ['B', 'o', 'b'] ∧
    (Tamagotchi.fresh.load (some savedText) 0).hunger.get = 60 ∧
    (Tamagotchi.fresh.load (some savedText) 0).happiness.get = 40 ∧
    (Tamagotchi.fresh.load (some savedText) 0).energy.get = 50 ∧
    (Tamagotchi.fresh.load (some savedText) 0).cleanliness.get = 50 ∧
    (Tamagotchi.fresh.load (some savedText) 0).age.get = 2 ∧
    (Tamagotchi.fresh.load (some savedText) 0).economy.getMoney = 50 ∧
    (Tamagotchi.fresh.load (some savedText) 0).economy.getMoney ≠ 30 := by
  refine ⟨fun t file value0 => rfl, by rfl, by rfl, by rfl, by rfl, by rfl, by rfl, by rfl,
    by rfl, by decide⟩

/-! ## C6: a choice outside the menu -/

/-- C6 as stated fails. On a fresh pet a turn with the choice `8`, which is not
on the menu, and random draw 0 goes on to the aliveness step: hunger goes from
50 to 40, age from 0 to 1, and the loop continues. -/
theorem invalid_choice_counterexample :
    Interaction.handleChoice (menuInput '8' 0) Tamagotchi.fresh = Tamagotchi.fresh ∧
    Tamagotchi.fresh.hunger.get = 50 ∧ Tamagotchi.fresh.age.get = 0 ∧
    (Tamagotchi.fresh.turn (menuInput '8' 0)).2 = true ∧
    (Tamagotchi.fresh.turn (menuInput '8' 0)).1.hunger.get = 40 ∧
    (Tamagotchi.fresh.turn (menuInput '8' 0)).1.age.get = 1 ∧
    ¬ ((Tamagotchi.fresh.turn (menuInput '8' 0)).1.hunger.get = Tamagotchi.fresh.hunger.get ∧
        (Tamagotchi.fresh.turn (menuInput '8' 0)).1.age.get = Tamagotchi.fresh.age.get) := by
  decide

/-- C6 as amended. For every pet whose attributes have the bounds 0 and 100 and
every menu choice that is not one of `1` to `7`: `handleChoice` changes
nothing, and the balance, the name and health are the same after the turn as
before it. The turn is not skipped: when `isAlive()` holds, the loop goes on,
age grows by exactly 1 and exactly one of hunger, happiness, energy,
cleanliness is lowered to `max 0 (value - 10)`; when it fails, the loop stops
and the pet after the turn is the pet before it. -/
theorem invalid_choice_turn (t : Tamagotchi) (i : TurnInput) (hb : t.Bounded)
    (hinv : i.choice ≠ '1' ∧ i.choice ≠ '2' ∧ i.choice ≠ '3' ∧ i.choice ≠ '4' ∧
      i.choice ≠ '5' ∧ i.choice ≠ '6' ∧ i.choice ≠ '7') :
    Interaction.handleChoice i t = t ∧
    (t.turn i).1.economy.getMoney = t.economy.getMoney ∧
    (t.turn i).1.name = t.name ∧
    (t.turn i).1.health = t.health ∧
    (t.isAlive = true →
      (t.turn i).2 = true ∧
      (t.turn i).1.age.get = t.age.get + 1 ∧
      (((t.turn i).1.hunger.get = max 0 (t.hunger.get - 10) ∧
          (t.turn i).1.hunger.get < t.hunger.get ∧
          (t.turn i).1.happiness = t.happiness ∧
          (t.turn i).1.energy = t.energy ∧
          (t.turn i).1.cleanliness = t.cleanliness) ∨
        ((t.turn i).1.happiness.get = max 0 (t.happiness.get - 10) ∧
          (t.turn i).1.happiness.get < t.happiness.get ∧
          (t.turn i).1.hunger = t.hunger ∧
          (t.turn i).1.energy = t.energy ∧
          (t.turn i).1.cleanliness = t.cleanliness) ∨
        ((t.turn i).1.energy.get = max 0 (t.energy.get - 10) ∧
          (t.turn i).1.energy.get < t.energy.get ∧
          (t.turn i).1.hunger = t.hunger ∧
          (t.turn i).1.happiness = t.happiness ∧
          (t.turn i).1.cleanliness = t.cleanliness) ∨
        ((t.turn i).1.cleanliness.get = max 0 (t.cleanliness.get - 10) ∧
          (t.turn i).1.cleanliness.get < t.cleanliness.get ∧
          (t.turn i).1.hunger = t.hunger ∧
          (t.turn i).1.happiness = t.happiness ∧
          (t.turn i).1.energy = t.energy))) ∧
    (t.isAlive = false → (t.turn i).2 = false ∧ (t.turn i).1 = t) := by
  obtain ⟨c1, c2, c3, c4, -, c6, c7⟩ := hinv
  have hc : Interaction.handleChoice i t = t := handleChoice_noop t i ⟨c1, c2, c3, c4, c6⟩
  have hrest : ∀ b : Bool, t.isAlive = b →
      (t.turn i).1.economy.getMoney = t.economy.getMoney ∧ (t.turn i).1.name = t.name ∧
        (t.turn i).1.health = t.health := by
    intro b hbv
    cases b
    · rw [turn_of_dead t i (by rw [hc]; exact hbv), hc]; simp
    · obtain ⟨-, e1, -, -, -, -, -, e7, e8⟩ := turn_of_alive t i (by rw [hc]; exact hbv)
      obtain ⟨n1, -, n3, n4, -⟩ := triggerEvent_alive i.eventRand t hb hbv
      rw [hc] at e1 e7 e8
      rw [e1, e7, e8, n1, n3, n4]; simp
  refine ⟨hc, (hrest _ rfl).1, (hrest _ rfl).2.1, (hrest _ rfl).2.2, ?_, ?_⟩
  · intro ha
    obtain ⟨e0, -, e2, e3, e4, e5, e6, -, -⟩ := turn_of_alive t i (by rw [hc]; exact ha)
    obtain ⟨-, n2, -, -, hd⟩ := triggerEvent_alive i.eventRand t hb ha
    rw [hc] at e2 e3 e4 e5 e6
    rw [e0, e2, e3, e4, e5, e6, n2]
    refine ⟨by simp [c7], by simp, ?_⟩
    rcases hd with ⟨-, d⟩ | ⟨-, d⟩ | ⟨-, d⟩ | ⟨-, d⟩
    · exact Or.inl d
    · exact Or.inr (Or.inl d)
    · exact Or.inr (Or.inr (Or.inl d))
    · exact Or.inr (Or.inr (Or.inr d))
  · intro ha
    rw [turn_of_dead t i (by rw [hc]; exact ha), hc]
    exact ⟨rfl, rfl⟩

/-- C6 as amended, at concrete pets: the choice `x` on a fresh pet (alive: one
event, on energy for the draw 2, and one more turn of age) and on the pet of
`hungryPet` after Feed (hunger 0: the loop stops, nothing changes). -/
theorem invalid_choice_turn_witness :
    Tamagotchi.fresh.Bounded ∧ Tamagotchi.fresh.isAlive = true ∧
    (Tamagotchi.fresh.turn (menuInput 'x' 2)).2 = true ∧
    (Tamagotchi.fresh.turn (menuInput 'x' 2)).1.age.get = Tamagotchi.fresh.age.get + 1 ∧
    (Tamagotchi.fresh.turn (menuInput 'x' 2)).1.energy.get = 40 ∧
    (Tamagotchi.fresh.turn (menuInput 'x' 2)).1.economy.getMoney
      = Tamagotchi.fresh.economy.getMoney :=
  ⟨by decide, by decide,
    ((invalid_choice_turn Tamagotchi.fresh (menuInput 'x' 2) (by decide) (by decide)).2.2.2.2.1
      (by decide)).1,
    ((invalid_choice_turn Tamagotchi.fresh (menuInput 'x' 2) (by decide) (by decide)).2.2.2.2.1
      (by decide)).2.1,
    by decide,
    (invalid_choice_turn Tamagotchi.fresh (menuInput 'x' 2) (by decide) (by decide)).2.1⟩

/-! ## C7: the range invariant of `Attribute` -/

/-- One call with a non-negative argument keeps the value within the bounds,
and no call changes the bounds. -/
theorem Attribute.call_range (a : Attribute) (c : AttributeCall)
    (hr : a.min_value ≤ a.value ∧ a.value ≤ a.max_value) (hn : 0 ≤ c.amount) :
    ((a.call c).min_value ≤ (a.call c).value ∧ (a.call c).value ≤ (a.call c).max_value) ∧
    (a.call c).min_value = a.min_value ∧ (a.call c).max_value = a.max_value := by
  obtain ⟨h1, h2⟩ := hr
  cases c with
  | increase n =>
    simp only [AttributeCall.amount] at hn
    refine ⟨⟨?_, ?_⟩, rfl, rfl⟩ <;>
      simp only [Attribute.call, Attribute.increase_value, Attribute.increase_min_value,
        Attribute.increase_max_value] <;> omega
  | decrease n =>
    simp only [AttributeCall.amount] at hn
    refine ⟨⟨?_, ?_⟩, rfl, rfl⟩ <;>
      simp only [Attribute.call, Attribute.decrease_value, Attribute.decrease_min_value,
        Attribute.decrease_max_value] <;> omega

/-- A sequence of calls with non-negative arguments keeps the value within the
bounds and the bounds as they were. -/
theorem Attribute.calls_range (cs : List AttributeCall) :
    ∀ a : Attribute, a.min_value ≤ a.value ∧ a.value ≤ a.max_value →
      (∀ c ∈ cs, 0 ≤ c.amount) →
      ((a.calls cs).min_value ≤ (a.calls cs).value ∧
        (a.calls cs).value ≤ (a.calls cs).max_value) ∧
      (a.calls cs).min_value = a.min_value ∧ (a.calls cs).max_value = a.max_value := by
  induction cs with
  | nil => intro a hr _; exact ⟨hr, rfl, rfl⟩
  | cons c rest ih =>
    intro a hr hn
    obtain ⟨s1, s2, s3⟩ := Attribute.call_range a c hr (hn c (by simp))
    obtain ⟨r1, r2, r3⟩ := ih (a.call c) s1 (fun d hd => hn d (by simp [hd]))
    simp only [Attribute.calls]
    exact ⟨r1, r2.trans s2, r3.trans s3⟩

/-- C7. For every `Attribute` with `min <= value <= max` and every finite
sequence of `increase` and `decrease` calls whose arguments are non-negative,
`min <= value <= max` holds after every call of the sequence: after each
initial part of the sequence, `get()` lies between the bounds, which are the
bounds the attribute started with. -/
theorem attribute_range_invariant (a : Attribute) (cs : List AttributeCall)
    (hr : a.min_value ≤ a.get ∧ a.get ≤ a.max_value) (hn : ∀ c ∈ cs, 0 ≤ c.amount) (k : Nat) :
    a.min_value ≤ (a.calls (cs.take k)).get ∧ (a.calls (cs.take k)).get ≤ a.max_value ∧
    (a.calls (cs.take k)).min_value = a.min_value ∧
    (a.calls (cs.take k)).max_value = a.max_value := by
  obtain ⟨⟨r1, r2⟩, r3, r4⟩ :=
    Attribute.calls_range (cs.take k) a hr (fun c hc => hn c (List.mem_of_mem_take hc))
  rw [r3] at r1
  rw [r4] at r2
  exact ⟨r1, r2, r3, r4⟩

/-- C7 at a concrete attribute: from 50 with bounds 0 and 100, the calls
`increase(70)`, `decrease(200)`, `increase(5)` give 100, 0, 5. -/
theorem attribute_range_invariant_witness :
    ((⟨50, 0, 100⟩ : Attribute).calls
        ([AttributeCall.increase 70, AttributeCall.decrease 200,
          AttributeCall.increase 5].take 1)).get = 100 ∧
    ((⟨50, 0, 100⟩ : Attribute).calls
        ([AttributeCall.increase 70, AttributeCall.decrease 200,
          AttributeCall.increase 5].take 2)).get = 0 ∧
    (0 : Int) ≤ ((⟨50, 0, 100⟩ : Attribute).calls
        ([AttributeCall.increase 70, AttributeCall.decrease 200,
          AttributeCall.increase 5].take 3)).get ∧
    ((⟨50, 0, 100⟩ : Attribute).calls
        ([AttributeCall.increase 70, AttributeCall.decrease 200,
          AttributeCall.increase 5].take 3)).get ≤ 100 :=
  ⟨by decide, by decide,
    (attribute_range_invariant ⟨50, 0, 100⟩
      [AttributeCall.increase 70, AttributeCall.decrease 200, AttributeCall.increase 5]
      (by decide) (by decide) 3).1,
    (attribute_range_invariant ⟨50, 0, 100⟩
      [AttributeCall.increase 70, AttributeCall.decrease 200, AttributeCall.increase 5]
      (by decide) (by decide) 3).2.1⟩

/-! ## C8: arguments of either sign -/

/-- C8 as stated fails. The attribute 50 with bounds 0 and 100 is within its
bounds; `increase(-100)` leaves it at -50, below `min`, and `decrease(-100)`
leaves it at 150, above `max`. -/
theorem negative_amount_counterexample :
    (⟨50, 0, 100⟩ : Attribute).min_value ≤ (⟨50, 0, 100⟩ : Attribute).get ∧
    (⟨50, 0, 100⟩ : Attribute).get ≤ (⟨50, 0, 100⟩ : Attribute).max_value ∧
    ((⟨50, 0, 100⟩ : Attribute).increase (-100)).get = -50 ∧
    ((⟨50, 0, 100⟩ : Attribute).decrease (-100)).get = 150 ∧
    ¬ ((⟨50, 0, 100⟩ : Attribute).min_value ≤ ((⟨50, 0, 100⟩ : Attribute).increase (-100)).get) ∧
    ¬ (((⟨50, 0, 100⟩ : Attribute).decrease (-100)).get ≤ (⟨50, 0, 100⟩ : Attribute).max_value) := by
  decide

/-- C8 as amended. With `int` taken as an unbounded integer (the sums
`value + amount` and `value - amount` are the mathematical ones, without
overflow): for every `Attribute` with `min <= value <= max` and every integer
amount, each mutator clamps on one side: after
`increase(amount)` the value is `min(max, value + amount)`, which is at most
`max`, and is at least `min` exactly when `value + amount` is; after
`decrease(amount)` the value is `max(min, value - amount)`, which is at least
`min`, and is at most `max` exactly when `value - amount` is. For every amount
that is at least 0 both results lie in `[min, max]`. -/
theorem one_sided_clamp (a : Attribute) (amount : Int)
    (hr : a.min_value ≤ a.get ∧ a.get ≤ a.max_value) :
    (a.increase amount).get = min a.max_value (a.get + amount) ∧
    (a.increase amount).get ≤ a.max_value ∧
    (a.min_value ≤ (a.increase amount).get ↔ a.min_value ≤ a.get + amount) ∧
    (a.decrease amount).get = max a.min_value (a.get - amount) ∧
    a.min_value ≤ (a.decrease amount).get ∧
    ((a.decrease amount).get ≤ a.max_value ↔ a.get - amount ≤ a.max_value) ∧
    (0 ≤ amount →
      (a.min_value ≤ (a.increase amount).get ∧ (a.increase amount).get ≤ a.max_value) ∧
      (a.min_value ≤ (a.decrease amount).get ∧ (a.decrease amount).get ≤ a.max_value)) := by
  obtain ⟨h1, h2⟩ := hr
  simp only [Attribute.get_value, Attribute.increase_value, Attribute.decrease_value] at h1 h2 ⊢
  refine ⟨trivial, ?_, ?_, trivial, ?_, ?_, ?_⟩
  · omega
  · omega
  · omega
  · omega
  · intro hn
    omega

/-- C8 as amended, at a concrete attribute: 50 with bounds 0 and 100 and the
amounts -100 (clamped on one side only) and 70 (within the bounds). -/
theorem one_sided_clamp_witness :
    ((⟨50, 0, 100⟩ : Attribute).increase (-100)).get ≤ 100 ∧
    (0 : Int) ≤ ((⟨50, 0, 100⟩ : Attribute).decrease (-100)).get ∧
    ((0 : Int) ≤ ((⟨50, 0, 100⟩ : Attribute).increase 70).get ∧
      ((⟨50, 0, 100⟩ : Attribute).increase 70).get ≤ 100) ∧
    ((⟨50, 0, 100⟩ : Attribute).increase 70).get = 100 :=
  ⟨(one_sided_clamp ⟨50, 0, 100⟩ (-100) (by decide)).2.1,
    (one_sided_clamp ⟨50, 0, 100⟩ (-100) (by decide)).2.2.2.2.1,
    ((one_sided_clamp ⟨50, 0, 100⟩ 70 (by decide)).2.2.2.2.2.2 (by decide)).1,
    by decide⟩

/-! ## C9: spending -/

/-- C9. For every balance and every amount, `spendMoney(amount)` returns true
and sets the balance to `balance - amount` when `balance >= amount`, and
returns false and leaves the balance unchanged when `amount > balance`; hence
a balance that is at least 0 is at least 0 after `spendMoney`. -/
theorem spendMoney_contract (e : Economy) (amount : Int) :
    (e.getMoney ≥ amount →
      (e.spendMoney amount).2 = true ∧
      (e.spendMoney amount).1.getMoney = e.getMoney - amount) ∧
    (amount > e.getMoney →
      (e.spendMoney amount).2 = false ∧ (e.spendMoney amount).1 = e) ∧
    (0 ≤ e.getMoney → 0 ≤ (e.spendMoney amount).1.getMoney) := by
  simp only [Economy.getMoney_eq, Economy.spendMoney_fst, Economy.spendMoney_snd]
  refine ⟨fun h => ?_, fun h => ?_, fun h => ?_⟩
  · simp [h]
  · have h1 : ¬ e.money ≥ amount := by omega
    simp [h1]
  · split_ifs with h2
    · simp only []
      omega
    · exact h

/-- C9 at concrete balances: from 50, spending 20 succeeds and leaves 30,
spending 60 fails and leaves 50. -/
theorem spendMoney_contract_witness :
    ((⟨50⟩ : Economy).spendMoney 20).2 = true ∧
    ((⟨50⟩ : Economy).spendMoney 20).1.getMoney = 50 - 20 ∧
    ((⟨50⟩ : Economy).spendMoney 60).2 = false ∧
    ((⟨50⟩ : Economy).spendMoney 60).1 = ⟨50⟩ ∧
    (0 : Int) ≤ ((⟨50⟩ : Economy).spendMoney 20).1.getMoney :=
  ⟨((spendMoney_contract ⟨50⟩ 20).1 (by decide)).1,
    ((spendMoney_contract ⟨50⟩ 20).1 (by decide)).2,
    ((spendMoney_contract ⟨50⟩ 60).2.1 (by decide)).1,
    ((spendMoney_contract ⟨50⟩ 60).2.1 (by decide)).2,
    (spendMoney_contract ⟨50⟩ 20).2.2 (by decide)⟩

/-! ## C10: the three purchases -/

/-- C10. For every balance and every target attribute: `buyFood` (price 20,
gain 20), `buyMedicine` (price 30, gain 30) and `buyToy` (price 15, gain 15)
each set the balance to `balance - price` and the attribute to
`min(max, value + gain)`, leaving its bounds alone, when `balance >= price`,
and change neither the balance nor the attribute when `balance < price`. -/
theorem purchase_contract (e : Economy) (a : Attribute) :
    (e.getMoney ≥ 20 →
      (e.buyFood a).1.getMoney = e.getMoney - 20 ∧
      (e.buyFood a).2 = ⟨min a.max_value (a.get + 20), a.min_value, a.max_value⟩) ∧
    (e.getMoney < 20 → e.buyFood a = (e, a)) ∧
    (e.getMoney ≥ 30 →
      (e.buyMedicine a).1.getMoney = e.getMoney - 30 ∧
      (e.buyMedicine a).2 = ⟨min a.max_value (a.get + 30), a.min_value, a.max_value⟩) ∧
    (e.getMoney < 30 → e.buyMedicine a = (e, a)) ∧
    (e.getMoney ≥ 15 →
      (e.buyToy a).1.getMoney = e.getMoney - 15 ∧
      (e.buyToy a).2 = ⟨min a.max_value (a.get + 15), a.min_value, a.max_value⟩) ∧
    (e.getMoney < 15 → e.buyToy a = (e, a)) := by
  simp only [Economy.getMoney_eq, Attribute.get_value, Economy.buyFood, Economy.buyMedicine,
    Economy.buyToy, Economy.spendMoney_fst, Economy.spendMoney_snd, Attribute.increase]
  refine ⟨fun h => ?_, fun h => ?_, fun h => ?_, fun h => ?_, fun h => ?_, fun h => ?_⟩
  · simp [h]
  · have h1 : ¬ e.money ≥ 20 := by omega
    simp [h1]
  · simp [h]
  · have h1 : ¬ e.money ≥ 30 := by omega
    simp [h1]
  · simp [h]
  · have h1 : ¬ e.money ≥ 15 := by omega
    simp [h1]

/-- C10, the scenario of the specification: a new pet, balance 50 and hunger
50; `buyFood` gives balance 30 and hunger 70, also when reached through the
Shop action of the menu. A balance of 10 buys nothing. -/
theorem purchase_contract_witness :
    Tamagotchi.fresh.economy.getMoney = 50 ∧ Tamagotchi.fresh.hunger.get = 50 ∧
    (Tamagotchi.fresh.economy.buyFood Tamagotchi.fresh.hunger).1.getMoney = 50 - 20 ∧
    (Tamagotchi.fresh.economy.buyFood Tamagotchi.fresh.hunger).2 = ⟨70, 0, 100⟩ ∧
    (Interaction.handleChoice buyFoodInput Tamagotchi.fresh).economy.getMoney = 30 ∧
    (Interaction.handleChoice buyFoodInput Tamagotchi.fresh).hunger.get = 70 ∧
    (⟨10⟩ : Economy).buyFood ⟨50, 0, 100⟩ = (⟨10⟩, ⟨50, 0, 100⟩) :=
  ⟨by decide, by decide,
    ((purchase_contract Tamagotchi.fresh.economy Tamagotchi.fresh.hunger).1 (by decide)).1,
    ((purchase_contract Tamagotchi.fresh.economy Tamagotchi.fresh.hunger).1 (by decide)).2,
    by decide, by decide,
    (purchase_contract ⟨10⟩ ⟨50, 0, 100⟩).2.1 (by decide)⟩

/-! ## C11: aliveness -/

/-- C11. `isAlive()` returns true if and only if hunger, happiness, energy and
cleanliness are all above 0; it returns false if and only if at least one of
the four is at most 0; and two pets with the same four attributes give the
same result whatever their name, age, health and balance. -/
theorem isAlive_contract (name name2 : List Char) (hunger happiness energy cleanliness : Attribute)
    (age age2 : Age) (health health2 : Attribute) (economy economy2 : Economy) :
    ((⟨name, hunger, happiness, energy, cleanliness, age, health, economy⟩ :
        Tamagotchi).isAlive = true ↔
      hunger.get > 0 ∧ happiness.get > 0 ∧ energy.get > 0 ∧ cleanliness.get > 0) ∧
    ((⟨name, hunger, happiness, energy, cleanliness, age, health, economy⟩ :
        Tamagotchi).isAlive = false ↔
      hunger.get ≤ 0 ∨ happiness.get ≤ 0 ∨ energy.get ≤ 0 ∨ cleanliness.get ≤ 0) ∧
    (⟨name, hunger, happiness, energy, cleanliness, age, health, economy⟩ :
        Tamagotchi).isAlive
      = (⟨name2, hunger, happiness, energy, cleanliness, age2, health2, economy2⟩ :
        Tamagotchi).isAlive := by
  refine ⟨?_, ?_, rfl⟩
  · rw [isAlive_iff]
    simp
  · rw [← Bool.not_eq_true, isAlive_iff]
    simp only [Attribute.get_value]
    omega

/-! ## C12: the random event -/

/-- C12. For every draw `r` of `rand()` and every pet, `triggerEvent` moves
exactly the attribute selected by `r % 4` (0 hunger, 1 happiness, 2 energy,
3 cleanliness) to `max(min, value - 10)`, bounds untouched, and leaves the rest
of the pet as it is; `r % 4` is one of the four residues, and an attribute
that differs after the event is the one its residue selects. -/
theorem triggerEvent_contract (r : Nat) (t : Tamagotchi) :
    (r % 4 = 0 ∨ r % 4 = 1 ∨ r % 4 = 2 ∨ r % 4 = 3) ∧
    (r % 4 = 0 → SimpleRandomEvent.triggerEvent r t =
      ⟨t.name, ⟨max t.hunger.min_value (t.hunger.get - 10), t.hunger.min_value,
        t.hunger.max_value⟩, t.happiness, t.energy, t.cleanliness, t.age, t.health,
        t.economy⟩) ∧
    (r % 4 = 1 → SimpleRandomEvent.triggerEvent r t =
      ⟨t.name, t.hunger, ⟨max t.happiness.min_value (t.happiness.get - 10),
        t.happiness.min_value, t.happiness.max_value⟩, t.energy, t.cleanliness, t.age,
        t.health, t.economy⟩) ∧
    (r % 4 = 2 → SimpleRandomEvent.triggerEvent r t =
      ⟨t.name, t.hunger, t.happiness, ⟨max t.energy.min_value (t.energy.get - 10),
        t.energy.min_value, t.energy.max_value⟩, t.cleanliness, t.age, t.health,
        t.economy⟩) ∧
    (r % 4 = 3 → SimpleRandomEvent.triggerEvent r t =
      ⟨t.name, t.hunger, t.happiness, t.energy,
        ⟨max t.cleanliness.min_value (t.cleanliness.get - 10), t.cleanliness.min_value,
          t.cleanliness.max_value⟩, t.age, t.health, t.economy⟩) ∧
    ((SimpleRandomEvent.triggerEvent r t).hunger ≠ t.hunger → r % 4 = 0) ∧
    ((SimpleRandomEvent.triggerEvent r t).happiness ≠ t.happiness → r % 4 = 1) ∧
    ((SimpleRandomEvent.triggerEvent r t).energy ≠ t.energy → r % 4 = 2) ∧
    ((SimpleRandomEvent.triggerEvent r t).cleanliness ≠ t.cleanliness → r % 4 = 3) := by
  have hr : r % 4 < 4 := Nat.mod_lt _ (by norm_num)
  have h0 : r % 4 = 0 ∨ r % 4 = 1 ∨ r % 4 = 2 ∨ r % 4 = 3 := by omega
  refine ⟨h0, ?_⟩
  unfold SimpleRandomEvent.triggerEvent
  rcases h0 with h | h | h | h <;> simp [h, Attribute.decrease]

/-- C12 at concrete draws on a fresh pet: the draws 8, 5, 6 and 7 hit hunger,
happiness, energy and cleanliness, each going from 50 to 40. -/
theorem triggerEvent_contract_witness :
    SimpleRandomEvent.triggerEvent 8 Tamagotchi.fresh =
      ⟨[], ⟨40, 0, 100⟩, ⟨50, 0, 100⟩, ⟨50, 0, 100⟩, ⟨50, 0, 100⟩, ⟨0⟩, ⟨50, 0, 100⟩, ⟨50⟩⟩ ∧
    SimpleRandomEvent.triggerEvent 5 Tamagotchi.fresh =
      ⟨[], ⟨50, 0, 100⟩, ⟨40, 0, 100⟩, ⟨50, 0, 100⟩, ⟨50, 0, 100⟩, ⟨0⟩, ⟨50, 0, 100⟩, ⟨50⟩⟩ ∧
    SimpleRandomEvent.triggerEvent 6 Tamagotchi.fresh =
      ⟨[], ⟨50, 0, 100⟩, ⟨50, 0, 100⟩, ⟨40, 0, 100⟩, ⟨50, 0, 100⟩, ⟨0⟩, ⟨50, 0, 100⟩, ⟨50⟩⟩ ∧
    SimpleRandomEvent.triggerEvent 7 Tamagotchi.fresh =
      ⟨[], ⟨50, 0, 100⟩, ⟨50, 0, 100⟩, ⟨50, 0, 100⟩, ⟨40, 0, 100⟩, ⟨0⟩, ⟨50, 0, 100⟩, ⟨50⟩⟩ :=
  ⟨(triggerEvent_contract 8 Tamagotchi.fresh).2.1 (by decide),
    (triggerEvent_contract 5 Tamagotchi.fresh).2.2.1 (by decide),
    (triggerEvent_contract 6 Tamagotchi.fresh).2.2.2.1 (by decide),
    (triggerEvent_contract 7 Tamagotchi.fresh).2.2.2.2.1 (by decide)⟩

/-! ## C13: the action table -/

/-- C13. For every pet whose attributes have the bounds 0 and 100:
Feed (`1`) sets hunger to `max(0, hunger - 10)`; Sleep (`3`) sets energy to
`min(100, energy + 20)` and hunger to `min(100, hunger + 5)`; Clean (`4`) sets
cleanliness to `min(100, cleanliness + 20)`; Status (`5`) changes nothing. In
each case the attributes not named keep their values and bounds, and name,
age, health and the balance are unchanged. -/
theorem action_table (t : Tamagotchi) (i : TurnInput) (hb : t.Bounded) :
    (i.choice = '1' → Interaction.handleChoice i t =
      ⟨t.name, ⟨max 0 (t.hunger.get - 10), 0, 100⟩, t.happiness, t.energy, t.cleanliness,
        t.age, t.health, t.economy⟩) ∧
    (i.choice = '3' → Interaction.handleChoice i t =
      ⟨t.name, ⟨min 100 (t.hunger.get + 5), 0, 100⟩, t.happiness,
        ⟨min 100 (t.energy.get + 20), 0, 100⟩, t.cleanliness, t.age, t.health, t.economy⟩) ∧
    (i.choice = '4' → Interaction.handleChoice i t =
      ⟨t.name, t.hunger, t.happiness, t.energy, ⟨min 100 (t.cleanliness.get + 20), 0, 100⟩,
        t.age, t.health, t.economy⟩) ∧
    (i.choice = '5' → Interaction.handleChoice i t = t) := by
  obtain ⟨⟨h1, h2⟩, -, ⟨h5, h6⟩, ⟨h7, h8⟩, -⟩ := hb
  refine ⟨fun h => ?_, fun h => ?_, fun h => ?_, fun h => ?_⟩
  · simp [Interaction.handleChoice, h, Attribute.decrease, h1, h2]
  · simp [Interaction.handleChoice, h, Attribute.increase, h1, h2, h5, h6]
  · simp [Interaction.handleChoice, h, Attribute.increase, h7, h8]
  · simp [Interaction.handleChoice, h]

/-- C13 at concrete pets: Feed on the pet with hunger 5, and Sleep, Clean and
Status on a fresh pet. -/
theorem action_table_witness :
    Interaction.handleChoice (menuInput '1' 0) hungryPet =
      ⟨['B', 'o', 'b'], ⟨0, 0, 100⟩, ⟨50, 0, 100⟩, ⟨50, 0, 100⟩, ⟨50, 0, 100⟩, ⟨0⟩,
        ⟨50, 0, 100⟩, ⟨50⟩⟩ ∧
    Interaction.handleChoice (menuInput '3' 0) Tamagotchi.fresh =
      ⟨[], ⟨55, 0, 100⟩, ⟨50, 0, 100⟩, ⟨70, 0, 100⟩, ⟨50, 0, 100⟩, ⟨0⟩, ⟨50, 0, 100⟩, ⟨50⟩⟩ ∧
    Interaction.handleChoice (menuInput '4' 0) Tamagotchi.fresh =
      ⟨[], ⟨50, 0, 100⟩, ⟨50, 0, 100⟩, ⟨50, 0, 100⟩, ⟨70, 0, 100⟩, ⟨0⟩, ⟨50, 0, 100⟩, ⟨50⟩⟩ ∧
    Interaction.handleChoice (menuInput '5' 0) Tamagotchi.fresh = Tamagotchi.fresh :=
  ⟨(action_table hungryPet (menuInput '1' 0) (by decide)).1 (by decide),
    (action_table Tamagotchi.fresh (menuInput '3' 0) (by decide)).2.1 (by decide),
    (action_table Tamagotchi.fresh (menuInput '4' 0) (by decide)).2.2.1 (by decide),
    (action_table Tamagotchi.fresh (menuInput '5' 0) (by decide)).2.2.2 (by decide)⟩

/-! ## C14: the contract of `Attribute` -/

/-- C14. For every `Attribute` and every integer `delta`, so in particular
every `delta >= 0`: `increase(delta)` sets the value to
`min(max, value + delta)`, `decrease(delta)` sets it to
`max(min, value - delta)`, neither changes `min` or `max`, and `get()` returns
the current value and is a pure read. -/
theorem attribute_contract (value min_value max_value delta : Int) :
    ((⟨value, min_value, max_value⟩ : Attribute).increase delta).get
      = min max_value (value + delta) ∧
    ((⟨value, min_value, max_value⟩ : Attribute).increase delta).min_value = min_value ∧
    ((⟨value, min_value, max_value⟩ : Attribute).increase delta).max_value = max_value ∧
    ((⟨value, min_value, max_value⟩ : Attribute).decrease delta).get
      = max min_value (value - delta) ∧
    ((⟨value, min_value, max_value⟩ : Attribute).decrease delta).min_value = min_value ∧
    ((⟨value, min_value, max_value⟩ : Attribute).decrease delta).max_value = max_value ∧
    (⟨value, min_value, max_value⟩ : Attribute).get = value :=
  ⟨rfl, rfl, rfl, rfl, rfl, rfl, rfl⟩

/-! ## C15: a save file that cannot be opened -/

/-- C15. When the save file cannot be opened, `loadFromFile` throws
`TamagotchiException` and leaves every target as it was, whatever the targets
and the local `value` held. So the load step of `run` leaves the pet as it
was, and `run` on a fresh pet with the name entered at startup plays its loop
from the default state: hunger, happiness, energy and cleanliness 50, age 0,
balance 50, and that name. -/
theorem load_failure_atomic (value0 : Int) (tg : LoadTargets) (t : Tamagotchi)
    (name : List Char) (writable : Bool) (inputs : List TurnInput) :
    SaveLoad.loadFromFile none value0 tg = (tg, some TamagotchiException.critical) ∧
    t.load none value0 = t ∧
    (Tamagotchi.fresh.setName name).load none value0 =
      ⟨name, ⟨50, 0, 100⟩, ⟨50, 0, 100⟩, ⟨50, 0, 100⟩, ⟨50, 0, 100⟩, ⟨0⟩, ⟨50, 0, 100⟩, ⟨50⟩⟩ ∧
    ((Tamagotchi.fresh.setName name).run ⟨none, writable⟩ value0 inputs).map Prod.fst
      = (⟨name, ⟨50, 0, 100⟩, ⟨50, 0, 100⟩, ⟨50, 0, 100⟩, ⟨50, 0, 100⟩, ⟨0⟩, ⟨50, 0, 100⟩,
          ⟨50⟩⟩ : Tamagotchi).runLoop inputs := by
  have hload : ∀ u : Tamagotchi, u.load none value0 = u := fun u => rfl
  have e : (⟨name, ⟨50, 0, 100⟩, ⟨50, 0, 100⟩, ⟨50, 0, 100⟩, ⟨50, 0, 100⟩, ⟨0⟩, ⟨50, 0, 100⟩,
      ⟨50⟩⟩ : Tamagotchi) = Tamagotchi.fresh.setName name := rfl
  refine ⟨rfl, hload t, rfl, ?_⟩
  rw [e]
  simp only [Tamagotchi.run, hload]
  cases (Tamagotchi.fresh.setName name).runLoop inputs with
  | none => rfl
  | some t1 =>
    simp only []
    cases t1.save writable <;> rfl

/-! ## C16: age -/

/-- The action of a turn does not touch the age. -/
theorem handleChoice_age (i : TurnInput) (t : Tamagotchi) :
    (Interaction.handleChoice i t).age = t.age := by
  unfold Interaction.handleChoice Interaction.playGame Interaction.handleShopChoice
  split_ifs <;> rfl

/-- The random event does not touch the age. -/
theorem triggerEvent_age (r : Nat) (t : Tamagotchi) :
    (SimpleRandomEvent.triggerEvent r t).age = t.age := by
  unfold SimpleRandomEvent.triggerEvent
  split_ifs <;> rfl

/-- Over one turn the age stays or grows by exactly 1. -/
theorem turn_age_step (t : Tamagotchi) (i : TurnInput) :
    (t.turn i).1.age.get = t.age.get ∨ (t.turn i).1.age.get = t.age.get + 1 := by
  cases ha : (Interaction.handleChoice i t).isAlive with
  | false =>
    left
    rw [turn_of_dead t i ha, handleChoice_age]
  | true =>
    right
    obtain ⟨-, -, -, -, -, -, e6, -, -⟩ := turn_of_alive t i ha
    rw [e6, triggerEvent_age, handleChoice_age]
    rfl

/-- While the loop runs the age never falls below the age it started from. -/
theorem afterTurns_age_le (inputs : List TurnInput) :
    ∀ t0 t : Tamagotchi, t0.afterTurns inputs = some t → t0.age.get ≤ t.age.get := by
  induction inputs with
  | nil =>
    intro t0 t h
    simp only [Tamagotchi.afterTurns, Option.some.injEq] at h
    rw [h]
  | cons i rest ih =>
    intro t0 t h
    simp only [Tamagotchi.afterTurns] at h
    split_ifs at h with hc
    have h1 := ih _ _ h
    have h2 := turn_age_step t0 i
    omega

/-- C16. In every state that the loop reaches from a fresh pet (age 0, any
name) by any sequence of turns, the age is at least 0; and over every single
turn from such a state the age either stays the same or grows by exactly 1,
so it never decreases and is at least 0 after the turn as well, whether or
not that turn leaves the loop. -/
theorem age_monotone (name : List Char) (inputs : List TurnInput) (t : Tamagotchi)
    (i : TurnInput) (hreach : (Tamagotchi.fresh.setName name).afterTurns inputs = some t) :
    0 ≤ t.age.get ∧
    ((t.turn i).1.age.get = t.age.get ∨ (t.turn i).1.age.get = t.age.get + 1) ∧
    t.age.get ≤ (t.turn i).1.age.get ∧
    0 ≤ (t.turn i).1.age.get := by
  have h0 : (Tamagotchi.fresh.setName name).age.get = 0 := rfl
  have h1 := afterTurns_age_le inputs _ _ hreach
  have h2 := turn_age_step t i
  omega

/-- C16 at a concrete run: a fresh pet, five Status turns (age 5), then a
Clean turn (age 6). -/
theorem age_monotone_witness :
    (Tamagotchi.fresh.setName []).afterTurns (List.replicate 5 (menuInput '5' 3))
      = some dirtyPet ∧
    dirtyPet.age.get = 5 ∧ (dirtyPet.turn (menuInput '4' 0)).1.age.get = 6 ∧
    0 ≤ dirtyPet.age.get ∧
    dirtyPet.age.get ≤ (dirtyPet.turn (menuInput '4' 0)).1.age.get :=
  ⟨by decide, by decide, by decide,
    (age_monotone [] (List.replicate 5 (menuInput '5' 3)) dirtyPet (menuInput '4' 0)
      (by decide)).1,
    (age_monotone [] (List.replicate 5 (menuInput '5' 3)) dirtyPet (menuInput '4' 0)
      (by decide)).2.2.1⟩

/-! ## C17: the shop -/

/-- C17. For every pet whose attributes have the bounds 0 and 100 and every
shop choice: `1` applies `buyFood` to hunger, `2` applies `buyMedicine` to
cleanliness, `3` applies `buyToy` to happiness, any other choice changes
nothing, and the Shop action of the menu is that function on the shop choice
read. With a balance of at least 30, shop choice `2` sets cleanliness to
`min(100, cleanliness + 30)` and the balance to `balance - 30` and leaves
hunger, happiness, energy and health (and name and age) unchanged. -/
theorem shop_wiring (t : Tamagotchi) (i : TurnInput) (hb : t.Bounded) :
    (i.choice = '6' →
      Interaction.handleChoice i t = Interaction.handleShopChoice i.shopChoice t) ∧
    (i.shopChoice = '1' → Interaction.handleShopChoice i.shopChoice t =
      ⟨t.name, (t.economy.buyFood t.hunger).2, t.happiness, t.energy, t.cleanliness, t.age,
        t.health, (t.economy.buyFood t.hunger).1⟩) ∧
    (i.shopChoice = '2' → Interaction.handleShopChoice i.shopChoice t =
      ⟨t.name, t.hunger, t.happiness, t.energy, (t.economy.buyMedicine t.cleanliness).2,
        t.age, t.health, (t.economy.buyMedicine t.cleanliness).1⟩) ∧
    (i.shopChoice = '3' → Interaction.handleShopChoice i.shopChoice t =
      ⟨t.name, t.hunger, (t.economy.buyToy t.happiness).2, t.energy, t.cleanliness, t.age,
        t.health, (t.economy.buyToy t.happiness).1⟩) ∧
    (i.shopChoice ≠ '1' ∧ i.shopChoice ≠ '2' ∧ i.shopChoice ≠ '3' →
      Interaction.handleShopChoice i.shopChoice t = t) ∧
    (i.shopChoice = '2' ∧ t.economy.getMoney ≥ 30 →
      Interaction.handleShopChoice i.shopChoice t =
        ⟨t.name, t.hunger, t.happiness, t.energy,
          ⟨min 100 (t.cleanliness.get + 30), 0, 100⟩, t.age, t.health,
          ⟨t.economy.getMoney - 30⟩⟩) := by
  obtain ⟨-, -, -, ⟨h7, h8⟩, -⟩ := hb
  refine ⟨fun h => ?_, fun h => ?_, fun h => ?_, fun h => ?_, fun h => ?_, fun h => ?_⟩
  · simp [Interaction.handleChoice, h]
  · simp [Interaction.handleShopChoice, h]
  · simp [Interaction.handleShopChoice, h]
  · simp [Interaction.handleShopChoice, h]
  · simp [Interaction.handleShopChoice, h.1, h.2.1, h.2.2]
  · obtain ⟨hc, hm⟩ := h
    have hm2 : t.economy.money ≥ 30 := hm
    simp [Interaction.handleShopChoice, hc, Economy.buyMedicine, Economy.spendMoney_fst,
      Economy.spendMoney_snd, hm2, Attribute.increase, h7, h8]

/-- C17 at a fresh pet (balance 50, cleanliness 50): Shop with shop choice `2`
gives cleanliness 80 and balance 20 and leaves the rest, health included. -/
theorem shop_wiring_witness :
    Interaction.handleChoice ⟨'6', 0, 0, 0, 0, '2', 0⟩ Tamagotchi.fresh =
      Interaction.handleShopChoice '2' Tamagotchi.fresh ∧
    Interaction.handleShopChoice '2' Tamagotchi.fresh =
      ⟨[], ⟨50, 0, 100⟩, ⟨50, 0, 100⟩, ⟨50, 0, 100⟩, ⟨80, 0, 100⟩, ⟨0⟩, ⟨50, 0, 100⟩, ⟨20⟩⟩ :=
  ⟨(shop_wiring Tamagotchi.fresh ⟨'6', 0, 0, 0, 0, '2', 0⟩ (by decide)).1 (by decide),
    (shop_wiring Tamagotchi.fresh ⟨'6', 0, 0, 0, 0, '2', 0⟩ (by decide)).2.2.2.2.2
      (by decide)⟩

/-! ## C18: the two mini-games -/

/-- C18. For every happiness attribute, every money value, every draws of
`rand()` and every number typed: the secret `r % 100 + 1` of the guessing game
lies in `[1, 100]` and both operands of the arithmetic game lie in `[1, 10]`;
`GuessingGame::play` is the challenge game of the specification won exactly
when the guess equals the secret, and `ArithmeticGame::play` is that same
game won exactly when the answer equals the sum of the operands. In both, a
win sets happiness to `min(max, happiness + 20)` and the money argument to
`money + 10`, and a loss sets happiness to `max(min, happiness - 10)` and
leaves the money argument as it was. -/
theorem games_refine_challenge (r ra rb : Nat) (guess answer : Int) (happiness : Attribute)
    (money : Int) :
    (1 ≤ r % 100 + 1 ∧ r % 100 + 1 ≤ 100) ∧
    (1 ≤ ra % 10 + 1 ∧ ra % 10 + 1 ≤ 10) ∧
    (1 ≤ rb % 10 + 1 ∧ rb % 10 + 1 ≤ 10) ∧
    GuessingGame.play r guess happiness money
      = ChallengeGame.play (decide (guess = ((r % 100 + 1 : Nat) : Int))) happiness money ∧
    ArithmeticGame.play ra rb answer happiness money
      = ChallengeGame.play
          (decide (answer = ((ra % 10 + 1 : Nat) : Int) + ((rb % 10 + 1 : Nat) : Int)))
          happiness money ∧
    (guess = ((r % 100 + 1 : Nat) : Int) →
      GuessingGame.play r guess happiness money =
        (⟨min happiness.max_value (happiness.get + 20), happiness.min_value,
          happiness.max_value⟩, money + 10)) ∧
    (guess ≠ ((r % 100 + 1 : Nat) : Int) →
      GuessingGame.play r guess happiness money =
        (⟨max happiness.min_value (happiness.get - 10), happiness.min_value,
          happiness.max_value⟩, money)) ∧
    (answer = ((ra % 10 + 1 : Nat) : Int) + ((rb % 10 + 1 : Nat) : Int) →
      ArithmeticGame.play ra rb answer happiness money =
        (⟨min happiness.max_value (happiness.get + 20), happiness.min_value,
          happiness.max_value⟩, money + 10)) ∧
    (answer ≠ ((ra % 10 + 1 : Nat) : Int) + ((rb % 10 + 1 : Nat) : Int) →
      ArithmeticGame.play ra rb answer happiness money =
        (⟨max happiness.min_value (happiness.get - 10), happiness.min_value,
          happiness.max_value⟩, money)) := by
  have h1 : r % 100 < 100 := Nat.mod_lt _ (by norm_num)
  have h2 : ra % 10 < 10 := Nat.mod_lt _ (by norm_num)
  have h3 : rb % 10 < 10 := Nat.mod_lt _ (by norm_num)
  refine ⟨by omega, by omega, by omega, ?_, ?_, fun h => ?_, fun h => ?_, fun h => ?_,
    fun h => ?_⟩
  · unfold GuessingGame.play ChallengeGame.play
    by_cases h : guess = ((r % 100 + 1 : Nat) : Int) <;>
      simp [h, Attribute.increase, Attribute.decrease]
  · unfold ArithmeticGame.play ChallengeGame.play
    by_cases h : answer = ((ra % 10 + 1 : Nat) : Int) + ((rb % 10 + 1 : Nat) : Int) <;>
      simp [h, Attribute.increase, Attribute.decrease]
  · unfold GuessingGame.play
    rw [if_pos h]
    rfl
  · unfold GuessingGame.play
    rw [if_neg h]
    rfl
  · unfold ArithmeticGame.play
    rw [if_pos h]
    rfl
  · unfold ArithmeticGame.play
    rw [if_neg h]
    rfl

/-- C18 at concrete games on happiness 50 and money 50: the guessing game with
draw 41 (secret 42) won by the guess 42 and lost by the guess 7; the
arithmetic game with draws 12 and 29 (operands 3 and 10) won by the answer 13
and lost by the answer 12. -/
theorem games_refine_challenge_witness :
    GuessingGame.play 41 42 ⟨50, 0, 100⟩ 50 = (⟨70, 0, 100⟩, 60) ∧
    GuessingGame.play 41 7 ⟨50, 0, 100⟩ 50 = (⟨40, 0, 100⟩, 50) ∧
    ArithmeticGame.play 12 29 13 ⟨50, 0, 100⟩ 50 = (⟨70, 0, 100⟩, 60) ∧
    ArithmeticGame.play 12 29 12 ⟨50, 0, 100⟩ 50 = (⟨40, 0, 100⟩, 50) :=
  ⟨(games_refine_challenge 41 12 29 42 13 ⟨50, 0, 100⟩ 50).2.2.2.2.2.1 (by decide),
    (games_refine_challenge 41 12 29 7 12 ⟨50, 0, 100⟩ 50).2.2.2.2.2.2.1 (by decide),
    (games_refine_challenge 41 12 29 42 13 ⟨50, 0, 100⟩ 50).2.2.2.2.2.2.2.1 (by decide),
    (games_refine_challenge 41 12 29 7 12 ⟨50, 0, 100⟩ 50).2.2.2.2.2.2.2.2 (by decide)⟩

/-! ## C19: what loading does to a stored value -/

/-- C19. For every attribute (no condition on its value is needed) and every
integer `v` that `loadFromFile` reads for it, the attribute is left at
`min(max, v)` with its bounds untouched: this holds for whatever the stream
yields, and on a save file that stores the integers `v1`, `v2`, `v3`, `v4` the
four targets end at `min(max, v1)`, ..., `min(max, v4)`. A stored value above
`max` is therefore clamped to `max`, and a stored value below `min` is taken
as it is: a file that stores -5 and 250 leaves a fresh pet with hunger -5,
below its `min` 0, and happiness 100. -/
theorem load_clamps_above_only (name name0 : List Char) (v1 v2 v3 v4 age money : Int)
    (a1 a2 a3 a4 : Attribute) (age0 : Age) (money0 value0 : Int) (s : IFStream)
    (rest : List Attribute) (hname : '\n' ∉ name) :
    (loadAttributes s value0 (a1 :: rest)).2.2 =
      ⟨min a1.max_value (s.extractInt value0).2, a1.min_value, a1.max_value⟩
        :: (loadAttributes (s.extractInt value0).1 (s.extractInt value0).2 rest).2.2 ∧
    (SaveLoad.loadFromFile
        (some (name ++ '\n' :: (showInt v1 ++ '\n' :: (showInt v2 ++ '\n' :: (showInt v3 ++
          '\n' :: (showInt v4 ++ '\n' :: (showInt age ++ '\n' :: (showInt money ++
          ['\n']))))))))
        value0 ⟨[a1, a2, a3, a4], age0, money0, name0⟩).1.attributes =
      [⟨min a1.max_value v1, a1.min_value, a1.max_value⟩,
        ⟨min a2.max_value v2, a2.min_value, a2.max_value⟩,
        ⟨min a3.max_value v3, a3.min_value, a3.max_value⟩,
        ⟨min a4.max_value v4, a4.min_value, a4.max_value⟩] ∧
    (Tamagotchi.fresh.load (some outOfRangeText) value0).hunger.get = -5 ∧
    (Tamagotchi.fresh.load (some outOfRangeText) value0).hunger.get
      < (Tamagotchi.fresh.load (some outOfRangeText) value0).hunger.min_value ∧
    (Tamagotchi.fresh.load (some outOfRangeText) value0).happiness.get = 100 := by
  have g1 : (Tamagotchi.fresh.load (some outOfRangeText) value0).hunger.get = -5 := rfl
  have g2 : (Tamagotchi.fresh.load (some outOfRangeText) value0).hunger.min_value = 0 := rfl
  refine ⟨?_, ?_, g1, by rw [g1, g2]; decide, by rfl⟩
  · simp [loadAttributes, Attribute.increase]
  · simp only [SaveLoad.loadFromFile, getline_line _ _ _ hname, loadAttributes,
      extractInt_showInt, extractInt_newline]
    simp [Attribute.increase]

/-- C19 at a concrete file: the record Bob, -5, 250, 50, 50, 2, 30 read into
fresh targets gives the attributes -5, 100, 50, 50. -/
theorem load_clamps_above_only_witness :
    (SaveLoad.loadFromFile
        (some (['B', 'o', 'b'] ++ '\n' :: (showInt (-5) ++ '\n' :: (showInt 250 ++ '\n' ::
          (showInt 50 ++ '\n' :: (showInt 50 ++ '\n' :: (showInt 2 ++ '\n' :: (showInt 30 ++
          ['\n']))))))))
        0 ⟨[⟨50, 0, 100⟩, ⟨50, 0, 100⟩, ⟨50, 0, 100⟩, ⟨50, 0, 100⟩], ⟨0⟩, 50, []⟩).1.attributes =
      [⟨min 100 (-5), 0, 100⟩, ⟨min 100 250, 0, 100⟩, ⟨min 100 50, 0, 100⟩,
        ⟨min 100 50, 0, 100⟩] :=
  (load_clamps_above_only ['B', 'o', 'b'] [] (-5) 250 50 50 2 30 ⟨50, 0, 100⟩ ⟨50, 0, 100⟩
    ⟨50, 0, 100⟩ ⟨50, 0, 100⟩ ⟨0⟩ 50 0 ⟨[], false⟩ [] (by decide)).2.1

/-! ## C20: a pet that is not alive at the top of the loop -/

/-- C20. Whether a turn goes on to another turn depends only on the pet after
the action (and on the choice not being Quit), never on the pet after the
random event. So the loop reaches, from a fresh pet, a state in which
`isAlive()` is false while the loop is still running: five Status turns whose
events each take 10 of cleanliness leave cleanliness at 0. From that state the
action Clean brings cleanliness to 20, `isAlive()` holds again, the turn
applies its event and the loop goes on: a state in which `isAlive()` is false
is not terminal. -/
theorem dead_state_not_terminal :
    (∀ (t : Tamagotchi) (i : TurnInput),
      (t.turn i).2 = ((Interaction.handleChoice i t).isAlive && (i.choice != '7'))) ∧
    Tamagotchi.fresh.afterTurns (List.replicate 5 (menuInput '5' 3)) = some dirtyPet ∧
    dirtyPet.cleanliness.get = 0 ∧
    dirtyPet.isAlive = false ∧
    (Interaction.handleChoice (menuInput '4' 0) dirtyPet).cleanliness.get = 20 ∧
    (Interaction.handleChoice (menuInput '4' 0) dirtyPet).isAlive = true ∧
    (dirtyPet.turn (menuInput '4' 0)).2 = true ∧
    Tamagotchi.fresh.afterTurns (List.replicate 5 (menuInput '5' 3) ++ [menuInput '4' 0])
      = some (dirtyPet.turn (menuInput '4' 0)).1 ∧
    (dirtyPet.turn (menuInput '4' 0)).1.isAlive = true := by
  refine ⟨?_, by decide, by decide, by decide, by decide, by decide, by decide, by decide,
    by decide⟩
  intro t i
  unfold Tamagotchi.turn
  split_ifs with h <;> simp [h]

end GradeWork
